import Mathlib

/-!
# Facet platform shims: X11, Win32 and the Wayland stub

A shallow embedding of `src/platform/Linux/X11.c`, `src/platform/Windows/App.c`
and `src/platform/Linux/Wayland.c`.

Conventions of the embedding.

* The file-scope `static` variables of a backend become the fields of one
  state record, passed explicitly through every operation.
* Pointers are natural numbers, `0` being `NULL`; the `Display *` is an
  `Option`.
* C integers are `Nat`/`Int` with the conversions written out
  (`size_t` is 64 bits wide, `int`/`unsigned int` 32 bits, `long` 64 bits).
* A `float` variable is represented by the number it holds.  Every value the
  programs store in a `float` is the conversion of an integer, and such a
  conversion is again an integer, so the representation is an `Int`; the cast
  itself is `intToFloat`, which rounds to 24 significant bits.
* The event queue of the window system is an input: the list of events (or
  messages) that the successive `XNextEvent` / `PeekMessage` calls hand out.
-/

namespace Facet

/-! ## C conversions -/

/-- Conversion of an integer value to `unsigned int` (32 bits). -/
def toUnsignedInt (n : Nat) : Nat := n % 2 ^ 32

/-- Conversion of an unsigned value to `int` (32 bits, two's complement). -/
def toInt32 (n : Nat) : Int :=
  if n % 2 ^ 32 < 2 ^ 31 then ((n % 2 ^ 32 : Nat) : Int) else ((n % 2 ^ 32 : Nat) : Int) - 2 ^ 32

/-- Conversion of an `int` to `size_t` (64 bits), as the usual arithmetic
conversions do when an `int` is compared with a `size_t`. -/
def intToSizeT (i : Int) : Nat := (i % 2 ^ 64).toNat

/-- Conversion `(Atom)l` of a `long` to `unsigned long` (64 bits). -/
def longToAtom (l : Int) : Nat := (l % 2 ^ 64).toNat

/-- Single-precision rounding of a natural number: values below `2^24` are
kept, larger ones are rounded to 24 significant bits, ties to even. -/
def natToFloat (n : Nat) : Nat :=
  if n < 2 ^ 24 then n
  else
    let e := Nat.log2 n - 23
    let q := n / 2 ^ e
    let r := n % 2 ^ e
    let half := 2 ^ (e - 1)
    if r < half then q * 2 ^ e
    else if half < r then (q + 1) * 2 ^ e
    else if q % 2 = 0 then q * 2 ^ e
    else (q + 1) * 2 ^ e

/-- The cast `(float)i` of an `int`: the value of the resulting `float`. -/
def intToFloat (i : Int) : Int :=
  if i < 0 then -((natToFloat i.natAbs : Nat) : Int) else ((natToFloat i.natAbs : Nat) : Int)

/-! ## X11 backend (`src/platform/Linux/X11.c`) -/

/-- The `XImage` fields the program reads or writes.  `id` names the
allocation: two images are the same object exactly when their ids agree. -/
structure XImage where
  id : Nat
  width : Int
  height : Int
  data : Nat
deriving DecidableEq, Repr

/-- Xlib calls of the program that create, release or read image memory, in
the order they are issued. -/
inductive XCall where
  | createSimpleWindow (width height : Nat)
  | createImage (id : Nat) (data : Nat) (width height : Nat)
  | destroyImage (id : Nat) (data : Nat)
  | putImage (id : Nat) (data : Nat) (width height : Nat)
deriving DecidableEq, Repr

/-- The static variables of `X11.c`, and the trace of Xlib image calls. -/
structure X11State where
  display : Option Nat
  window : Nat
  screen : Int
  keys : Fin 512 → Bool
  mouse_buttons : Fin 3 → Bool
  last_click_x : Int
  last_click_y : Int
  wm_delete_window : Nat
  ximage : Option XImage
  gc : Nat
  window_closed : Bool
  xcalls : List XCall

/-- The static initialisers of `X11.c`. -/
def x11_initial : X11State where
  display := none
  window := 0
  screen := 0
  keys := fun _ => false
  mouse_buttons := fun _ => false
  last_click_x := 0
  last_click_y := 0
  wm_delete_window := 0
  ximage := none
  gc := 0
  window_closed := false
  xcalls := []

/-- An `XEvent`, by `event.type`, with the fields the program reads. -/
inductive XEvent where
  | clientMessage (data0 : Int)
  | keyPress (keycode : Nat)
  | keyRelease (keycode : Nat)
  | buttonPress (button : Nat) (x y : Int)
  | buttonRelease (button : Nat) (x y : Int)
  | configureNotify
  | mapNotify
  | other (type : Nat)
deriving DecidableEq, Repr

/-- What the X server answers during `linux_x11_init_app`. -/
structure XServer where
  display : Option Nat
  screen : Int
  window : Nat
  wm_delete_window : Nat
  gc : Nat
deriving DecidableEq, Repr

/-- The canvas collaborator: `zig_get_canvas_pixels`, `zig_get_canvas_width`
and `zig_get_canvas_height` (`size_t` values). -/
structure Canvas where
  pixels : Nat
  width : Nat
  height : Nat
deriving DecidableEq, Repr

/-- The wait loop at the end of `linux_x11_init_app`: `XNextEvent` until a
`MapNotify` is read.  `none` when the events run out first (the call blocks). -/
def waitMapNotify : List XEvent → Option (List XEvent)
  | [] => none
  | XEvent.mapNotify :: rest => some rest
  | _ :: rest => waitMapNotify rest

/-- `linux_x11_init_app`.  `none` when the call does not return: `exit(1)`
because the display cannot be opened, or no `MapNotify` ever arrives. -/
def linux_x11_init_app (srv : XServer) (c : Canvas) (s : X11State) (q : List XEvent) :
    Option (X11State × List XEvent) :=
  match srv.display with
  | none => none
  | some d =>
    let width := if c.width = 0 then 800 else c.width
    let height := if c.height = 0 then 600 else c.height
    let s1 : X11State :=
      { s with
        display := some d
        screen := srv.screen
        window := srv.window
        wm_delete_window := srv.wm_delete_window
        gc := srv.gc
        xcalls := s.xcalls ++ [XCall.createSimpleWindow (toUnsignedInt width) (toUnsignedInt height)] }
    match waitMapNotify q with
    | none => none
    | some rest => some (s1, rest)

/-- The `switch (event.type)` of `linux_x11_poll_events`: the state after the
event, and whether the function returned `true` from inside the switch. -/
def poll_switch (s : X11State) : XEvent → X11State × Bool
  | XEvent.clientMessage data0 =>
    if longToAtom data0 = s.wm_delete_window then ({ s with window_closed := true }, true)
    else (s, false)
  | XEvent.keyPress keycode =>
    if h : keycode < 512 then ({ s with keys := Function.update s.keys ⟨keycode, h⟩ true }, false)
    else (s, false)
  | XEvent.keyRelease keycode =>
    if h : keycode < 512 then ({ s with keys := Function.update s.keys ⟨keycode, h⟩ false }, false)
    else (s, false)
  | XEvent.buttonPress button x y =>
    if h : 1 ≤ button ∧ button ≤ 3 then
      ({ s with
         mouse_buttons := Function.update s.mouse_buttons ⟨button - 1, by omega⟩ true
         last_click_x := intToFloat x
         last_click_y := intToFloat y }, false)
    else (s, false)
  | XEvent.buttonRelease button _ _ =>
    if h : 1 ≤ button ∧ button ≤ 3 then
      ({ s with mouse_buttons := Function.update s.mouse_buttons ⟨button - 1, by omega⟩ false }, false)
    else (s, false)
  | XEvent.configureNotify => (s, false)
  | XEvent.mapNotify => (s, false)
  | XEvent.other _ => (s, false)

/-- Result of a `poll_events` call: the returned flag, the state, and the
events left unread in the queue. -/
structure PollResult where
  ret : Bool
  state : X11State
  queue : List XEvent

/-- The `while (XPending(display) > 0)` loop of `linux_x11_poll_events`. -/
def poll_loop (s : X11State) : List XEvent → PollResult
  | [] => ⟨false, s, []⟩
  | event :: rest =>
    match poll_switch s event with
    | (s1, true) => ⟨true, s1, rest⟩
    | (s1, false) => poll_loop s1 rest

/-- `linux_x11_poll_events`, on the events pending at the call. -/
def linux_x11_poll_events (s : X11State) (q : List XEvent) : PollResult :=
  if s.display.isNone then ⟨true, s, q⟩
  else if s.window_closed then ⟨true, s, q⟩
  else poll_loop s q

/-- Lines 123-126 of `linux_x11_present_frame`: the staging image is released
when its recorded size differs from the canvas size.  `XDestroyImage` frees
the image and, when it is not `NULL`, the memory its `data` field points to;
the trace records the `data` field at that moment. -/
def present_validate (s : X11State) (width height : Nat) : X11State :=
  match s.ximage with
  | some img =>
    if intToSizeT img.width ≠ width ∨ intToSizeT img.height ≠ height then
      { s with ximage := none, xcalls := s.xcalls ++ [XCall.destroyImage img.id img.data] }
    else s
  | none => s

/-- Lines 128-137: a new image is created around the pixels when there is
none, else the existing one is repointed.  `XCreateImage` takes the size as
`unsigned int`, stores it in the `int` fields of the image, and is taken to
succeed. -/
def present_wrap (s : X11State) (pixels width height : Nat) : X11State :=
  match s.ximage with
  | none =>
    { s with
      ximage := some
        { id := s.xcalls.length
          width := toInt32 (toUnsignedInt width)
          height := toInt32 (toUnsignedInt height)
          data := pixels }
      xcalls := s.xcalls ++
        [XCall.createImage s.xcalls.length pixels (toUnsignedInt width) (toUnsignedInt height)] }
  | some img => { s with ximage := some { img with data := pixels } }

/-- Line 139: `XPutImage`, recorded with the image it reads and the pixel
memory that image refers to. -/
def present_put (s : X11State) (width height : Nat) : X11State :=
  match s.ximage with
  | some img =>
    { s with
      xcalls := s.xcalls ++
        [XCall.putImage img.id img.data (toUnsignedInt width) (toUnsignedInt height)] }
  | none => s

/-- Line 141: `ximage->data = NULL`. -/
def present_detach (s : X11State) : X11State :=
  { s with ximage := s.ximage.map fun img => { img with data := 0 } }

/-- `linux_x11_present_frame`. -/
def linux_x11_present_frame (s : X11State) (c : Canvas) : X11State :=
  if s.display.isNone || s.window_closed then s
  else
    let pixels := c.pixels
    let width := c.width
    let height := c.height
    let s1 := present_validate s width height
    let s2 := present_wrap s1 pixels width height
    let s3 := present_put s2 width height
    present_detach s3

/-- `linux_x11_is_key_down`: the returned flag and the state after the call. -/
def linux_x11_is_key_down (s : X11State) (key_code : Nat) : Bool × X11State :=
  if h : key_code < 512 then (s.keys ⟨key_code, h⟩, s) else (false, s)

/-- `linux_x11_is_mouse_down`: the returned flag and the state after the call. -/
def linux_x11_is_mouse_down (s : X11State) (button : Nat) : Bool × X11State :=
  if h : button < 3 then (s.mouse_buttons ⟨button, h⟩, s) else (false, s)

/-- `linux_x11_get_last_click_position`.  An out-parameter is `none` for a
`NULL` pointer and `some v` for a pointer to a `float` holding `v`; the result
is what the two pointers refer to after the call. -/
def linux_x11_get_last_click_position (s : X11State) (x y : Option Int) :
    Option Int × Option Int :=
  (x.map fun _ => s.last_click_x, y.map fun _ => s.last_click_y)

/-- One call made by the application loop into the X11 backend. -/
inductive X11Op where
  | init_app (srv : XServer) (c : Canvas) (q : List XEvent)
  | poll_events (q : List XEvent)
  | present_frame (c : Canvas)
  | is_key_down (key_code : Nat)
  | is_mouse_down (button : Nat)
  | get_last_click_position (x y : Option Int)

/-- State after one call; `none` when the call does not return. -/
def x11_step (s : X11State) : X11Op → Option X11State
  | X11Op.init_app srv c q => (linux_x11_init_app srv c s q).map Prod.fst
  | X11Op.poll_events q => some (linux_x11_poll_events s q).state
  | X11Op.present_frame c => some (linux_x11_present_frame s c)
  | X11Op.is_key_down key_code => some (linux_x11_is_key_down s key_code).2
  | X11Op.is_mouse_down button => some (linux_x11_is_mouse_down s button).2
  | X11Op.get_last_click_position _ _ => some s

/-- State after a sequence of calls; `none` when one of them does not return. -/
def x11_run (s : X11State) : List X11Op → Option X11State
  | [] => some s
  | op :: ops =>
    match x11_step s op with
    | none => none
    | some s1 => x11_run s1 ops

/-- The event is a close request in state `s`: a `ClientMessage` whose first
data word is the `WM_DELETE_WINDOW` atom. -/
def isCloseRequest (s : X11State) : XEvent → Bool
  | XEvent.clientMessage data0 => decide (longToAtom data0 = s.wm_delete_window)
  | _ => false

/-- The event is a `ButtonPress` with a button in 1..3. -/
def isQualifyingPress : XEvent → Bool
  | XEvent.buttonPress button _ _ => decide (1 ≤ button ∧ button ≤ 3)
  | _ => false

/-- Window coordinates of the X protocol are 16-bit signed (the `INT16`
fields `event-x`, `event-y` of a pointer event); Xlib widens them to the `int`
fields `xbutton.x`, `xbutton.y`. -/
def isWindowCoordinate (v : Int) : Bool :=
  decide (-(2 ^ 15) ≤ v ∧ v < 2 ^ 15)

/-- The call hands no qualifying button press to the event switch. -/
def opHasNoPress : X11Op → Bool
  | X11Op.poll_events q => q.all fun e => !isQualifyingPress e
  | _ => true

/-- The events applied one after the other by the event switch, with no
early return. -/
def apply_events (s : X11State) (q : List XEvent) : X11State :=
  q.foldl (fun st e => (poll_switch st e).1) s

/-! ## Win32 backend (`src/platform/Windows/App.c`) -/

def WM_DESTROY : Nat := 0x0002
def WM_CLOSE : Nat := 0x0010
def WM_QUIT : Nat := 0x0012
def WM_MOUSEMOVE : Nat := 0x0200
def WM_LBUTTONDOWN : Nat := 0x0201
def WM_RBUTTONDOWN : Nat := 0x0204
def WM_MBUTTONDOWN : Nat := 0x0207
def VK_LBUTTON : Nat := 0x01
def VK_RBUTTON : Nat := 0x02
def VK_MBUTTON : Nat := 0x04

/-- The macro `LOWORD(l)`: the low 16 bits of the 64-bit pattern of `l`. -/
def LOWORD (l : Int) : Nat := (l % 2 ^ 64).toNat % 2 ^ 16

/-- The macro `HIWORD(l)`: bits 16..31 of the 64-bit pattern of `l`. -/
def HIWORD (l : Int) : Nat := (l % 2 ^ 64).toNat / 2 ^ 16 % 2 ^ 16

/-- The cast `(short)w` of a 16-bit word. -/
def toShort (w : Nat) : Int :=
  if w % 2 ^ 16 < 2 ^ 15 then ((w % 2 ^ 16 : Nat) : Int) else ((w % 2 ^ 16 : Nat) : Int) - 2 ^ 16

/-- The static variables of `App.c`. -/
structure Win32State where
  hwnd : Nat
  last_click_x : Int
  last_click_y : Int
  mouse_x : Int
  mouse_y : Int
  should_quit : Bool
deriving DecidableEq, Repr

/-- The static initialisers of `App.c`. -/
def win32_initial : Win32State where
  hwnd := 0
  last_click_x := 0
  last_click_y := 0
  mouse_x := 0
  mouse_y := 0
  should_quit := false

/-- The fields of a `MSG` the program or the dispatcher reads. -/
structure MSG where
  hwnd : Nat
  message : Nat
  wParam : Nat
  lParam : Int
deriving DecidableEq, Repr

/-- A message handed out by `PeekMessage`, with what the system does when it
is dispatched.  `facet` tells whether the window procedure of `msg.hwnd` is
`WndProc` (the window belongs to the class registered by `windows_init_app`).
`sent` lists the messages that `DefWindowProc` passes to `WndProc` while it
handles `msg`, in the order `WndProc` receives them, calls nested deeper
included; it is consulted only when `WndProc` reaches its `default` case. -/
structure Pending where
  msg : MSG
  facet : Bool
  sent : List MSG
deriving DecidableEq, Repr

/-- The `switch (msg)` of `WndProc`: the state after the explicit cases, and
whether control reached `default`.  `PostQuitMessage(0)` asks the system to
hand out a `WM_QUIT` later: that message then shows up among the messages
`PeekMessage` returns, which are an input here. -/
def WndProc_switch (s : Win32State) (msg : Nat) (lParam : Int) : Win32State × Bool :=
  if msg = WM_CLOSE then ({ s with should_quit := true }, false)
  else if msg = WM_DESTROY then (s, false)
  else if msg = WM_LBUTTONDOWN ∨ msg = WM_RBUTTONDOWN ∨ msg = WM_MBUTTONDOWN then
    let s1 : Win32State := { s with last_click_x := intToFloat (toShort (LOWORD lParam)) }
    let s2 : Win32State := { s1 with last_click_y := intToFloat (toShort (HIWORD lParam)) }
    let s3 : Win32State := { s2 with mouse_x := s2.last_click_x }
    ({ s3 with mouse_y := s3.last_click_y }, false)
  else if msg = WM_MOUSEMOVE then
    ({ s with
       mouse_x := intToFloat (toShort (LOWORD lParam))
       mouse_y := intToFloat (toShort (HIWORD lParam)) }, false)
  else (s, true)

/-- `DefWindowProc`, as far as the variables of the program go.  The default
processing can call the window procedure again: handling `WM_SYSCOMMAND` with
`SC_CLOSE` (close box, Alt+F4, system menu) it sends `WM_CLOSE` to the window,
and its modal loops dispatch further messages.  `sent` lists the messages
`WndProc` receives that way, in order; each goes through the switch of
`WndProc`, and one that reaches `default` there has the messages of its own
`DefWindowProc` call listed after it in `sent`. -/
def DefWindowProc (s : Win32State) (sent : List MSG) : Win32State :=
  sent.foldl (fun st n => (WndProc_switch st n.message n.lParam).1) s

/-- `WndProc`.  The `LRESULT` goes back to the system and is not
represented. -/
def WndProc (s : Win32State) (_hwnd : Nat) (msg : Nat) (_wParam : Nat) (lParam : Int)
    (sent : List MSG) : Win32State :=
  match WndProc_switch s msg lParam with
  | (s1, false) => s1
  | (s1, true) => DefWindowProc s1 sent

/-- `windows_init_app`: `created` is the handle `CreateWindow` returns. -/
def windows_init_app (s : Win32State) (created : Nat) : Win32State :=
  { s with hwnd := created }

/-- `DispatchMessage(&msg)`: calls the window procedure of the target window. -/
def DispatchMessage (s : Win32State) (m : Pending) : Win32State :=
  if m.facet then WndProc s m.msg.hwnd m.msg.message m.msg.wParam m.msg.lParam m.sent else s

/-- Result of `windows_poll_events`: the returned flag, the state, the
messages still pending, and the messages passed to `DispatchMessage`, in
order. -/
structure WinPollResult where
  ret : Bool
  state : Win32State
  queue : List Pending
  dispatched : List Pending
deriving DecidableEq, Repr

/-- The `while (PeekMessage(..., PM_REMOVE))` loop of `windows_poll_events`:
the state, the messages left, and the messages dispatched so far. -/
def peek_loop (s : Win32State) (done : List Pending) :
    List Pending → Win32State × List Pending × List Pending
  | [] => (s, [], done)
  | m :: rest =>
    let s1 : Win32State := if m.msg.message = WM_QUIT then { s with should_quit := true } else s
    peek_loop (DispatchMessage s1 m) (done ++ [m]) rest

/-- `windows_poll_events`, on the messages pending at the call. -/
def windows_poll_events (s : Win32State) (q : List Pending) : WinPollResult :=
  let r := peek_loop s [] q
  ⟨r.1.should_quit, r.1, r.2.1, r.2.2⟩

/-- The transfer `SetDIBitsToDevice` is asked to make. -/
structure DIBits where
  hwnd : Nat
  width : Nat
  height : Nat
  lines : Nat
  pixels : Nat
  biWidth : Int
  biHeight : Int
deriving DecidableEq, Repr

/-- `windows_present_frame`: the state, and the transfer requested (`none`
when there is no window). -/
def windows_present_frame (s : Win32State) (c : Canvas) : Win32State × Option DIBits :=
  if s.hwnd = 0 then (s, none)
  else
    (s, some
      { hwnd := s.hwnd
        width := toUnsignedInt c.width
        height := toUnsignedInt c.height
        lines := toUnsignedInt c.height
        pixels := c.pixels
        biWidth := toInt32 c.width
        biHeight := toInt32 (2 ^ 32 - toUnsignedInt c.height) })

/-- `windows_is_key_down`; `keyState` is `GetAsyncKeyState`, as a 16-bit pattern. -/
def windows_is_key_down (keyState : Nat → Nat) (key_code : Nat) : Bool :=
  decide (keyState key_code / 2 ^ 15 % 2 ≠ 0)

/-- `windows_is_mouse_down`; `keyState` is `GetAsyncKeyState`, as a 16-bit pattern. -/
def windows_is_mouse_down (keyState : Nat → Nat) (button : Nat) : Bool :=
  if button = 0 then decide (keyState VK_LBUTTON / 2 ^ 15 % 2 ≠ 0)
  else if button = 1 then decide (keyState VK_RBUTTON / 2 ^ 15 % 2 ≠ 0)
  else if button = 2 then decide (keyState VK_MBUTTON / 2 ^ 15 % 2 ≠ 0)
  else false

/-- `windows_get_last_click_position`: the values written through the two
pointers. -/
def windows_get_last_click_position (s : Win32State) : Int × Int :=
  (s.last_click_x, s.last_click_y)

/-- One entry into the Win32 backend: a call of the application loop, or a
call of `WndProc` made by the system outside `windows_poll_events` (with the
messages `DefWindowProc` passes on, as in `Pending`). -/
inductive Win32Op where
  | init_app (created : Nat)
  | wndProc (m : MSG) (sent : List MSG)
  | poll_events (q : List Pending)
  | present_frame (c : Canvas)
  | is_key_down (key_code : Nat)
  | is_mouse_down (button : Nat)
  | get_last_click_position
  | get_mouse_position

/-- State after one entry. -/
def win32_step (s : Win32State) : Win32Op → Win32State
  | Win32Op.init_app created => windows_init_app s created
  | Win32Op.wndProc m sent => WndProc s m.hwnd m.message m.wParam m.lParam sent
  | Win32Op.poll_events q => (windows_poll_events s q).state
  | Win32Op.present_frame c => (windows_present_frame s c).1
  | Win32Op.is_key_down _ => s
  | Win32Op.is_mouse_down _ => s
  | Win32Op.get_last_click_position => s
  | Win32Op.get_mouse_position => s

/-- State after a sequence of entries. -/
def win32_run (s : Win32State) (ops : List Win32Op) : Win32State :=
  ops.foldl win32_step s

/-- The message number is one of the three button-down messages. -/
def isButtonDown (message : Nat) : Bool :=
  decide (message = WM_LBUTTONDOWN ∨ message = WM_RBUTTONDOWN ∨ message = WM_MBUTTONDOWN)

/-- No button-down message among `m` and the messages `DefWindowProc` passes
on while handling it. -/
def noButtonDown (m : MSG) (sent : List MSG) : Bool :=
  !isButtonDown m.message && sent.all fun n => !isButtonDown n.message

/-- The entry brings no button-down message. -/
def winOpHasNoPress : Win32Op → Bool
  | Win32Op.wndProc m sent => noButtonDown m sent
  | Win32Op.poll_events q => q.all fun m => noButtonDown m.msg m.sent
  | _ => true

/-- The message number has a `case` of its own in `WndProc`. -/
def isHandled (message : Nat) : Bool :=
  decide (message = WM_CLOSE ∨ message = WM_DESTROY ∨ message = WM_LBUTTONDOWN ∨
    message = WM_RBUTTONDOWN ∨ message = WM_MBUTTONDOWN ∨ message = WM_MOUSEMOVE)

/-- A call of `WndProc` with this message makes `WndProc` receive `WM_CLOSE`:
the message is `WM_CLOSE`, or it reaches `default` and `DefWindowProc` passes
a `WM_CLOSE` on. -/
def receivesClose (message : Nat) (sent : List MSG) : Bool :=
  decide (message = WM_CLOSE) ||
    (!isHandled message && sent.any fun n => decide (n.message = WM_CLOSE))

/-- The message makes `windows_poll_events` latch the closed flag: a
`WM_QUIT`, or a message whose dispatch makes `WndProc` receive `WM_CLOSE`. -/
def isWinClose (m : Pending) : Bool :=
  decide (m.msg.message = WM_QUIT) || (m.facet && receivesClose m.msg.message m.sent)

/-! ## Wayland stub (`src/platform/Linux/Wayland.c`) -/

/-- `linux_wayland_init_app`: the two lines written to `stderr`; the call ends
in `exit(1)` and never returns, hence no state follows. -/
def linux_wayland_init_app : List String × Option Unit :=
  (["Wayland in not supported yet.", "Please use XWayland for now."], none)

def linux_wayland_poll_events : Bool := false

def linux_wayland_present_frame : Unit := ()

def linux_wayland_is_key_down (_k : Nat) : Bool := false

def linux_wayland_is_mouse_down (_b : Nat) : Bool := false

/-- `linux_wayland_get_last_click_position`, with the out-parameters as in
`linux_x11_get_last_click_position`. -/
def linux_wayland_get_last_click_position (x y : Option Int) : Option Int × Option Int :=
  (x.map fun _ => 0, y.map fun _ => 0)

/-- One call into the Wayland stub. -/
inductive WaylandOp where
  | init_app
  | poll_events
  | present_frame
  | is_key_down (k : Nat)
  | is_mouse_down (b : Nat)
  | get_last_click_position (x y : Option Int)

/-- The stub keeps no state; `none` when the call does not return. -/
def wayland_step (_s : Unit) : WaylandOp → Option Unit
  | WaylandOp.init_app => linux_wayland_init_app.2
  | WaylandOp.poll_events => some ()
  | WaylandOp.present_frame => some linux_wayland_present_frame
  | WaylandOp.is_key_down _ => some ()
  | WaylandOp.is_mouse_down _ => some ()
  | WaylandOp.get_last_click_position _ _ => some ()

/-- Outcome of a sequence of calls into the stub. -/
def wayland_run (s : Unit) : List WaylandOp → Option Unit
  | [] => some s
  | op :: ops =>
    match wayland_step s op with
    | none => none
    | some s1 => wayland_run s1 ops

/-- The entry makes the Win32 backend observe a close request: `WndProc`
receives `WM_CLOSE`, or `windows_poll_events` retrieves a `WM_QUIT` or
dispatches a message that makes `WndProc` receive `WM_CLOSE`. -/
def winOpObservesClose : Win32Op → Bool
  | Win32Op.wndProc m sent => receivesClose m.message sent
  | Win32Op.poll_events q => q.any isWinClose
  | _ => false

/-- The X11 `poll_events` called `n` times in a row with nothing pending: the
flags returned, in order, and the final state. -/
def poll_repeat_empty (s : X11State) : Nat → List Bool × X11State
  | 0 => ([], s)
  | n + 1 =>
    let r := linux_x11_poll_events s []
    let rs := poll_repeat_empty r.state n
    (r.ret :: rs.1, rs.2)

/-- What a key event says about key code `k`: `some true` for a `KeyPress` of
`k`, `some false` for a `KeyRelease` of `k`, `none` for any other event. -/
def keyEventFor (k : Nat) : XEvent → Option Bool
  | XEvent.keyPress keycode => if keycode = k then some true else none
  | XEvent.keyRelease keycode => if keycode = k then some false else none
  | _ => none

/-- Follows the wording of the specification: the last `KeyPress` or
`KeyRelease` event of the queue whose keycode is `k`, as `some true` for a
press and `some false` for a release; `none` when the queue has no key event
for `k`. -/
def spec_last_key_event (k : Nat) (q : List XEvent) : Option Bool :=
  q.reverse.findSome? (keyEventFor k)

/-- The Xlib image calls issued by one `linux_x11_present_frame` call made in
state `s`: what the call appends to the trace. -/
def frame_calls (s : X11State) (c : Canvas) : List XCall :=
  (linux_x11_present_frame s c).xcalls.drop s.xcalls.length

/-- The call is an `XDestroyImage`. -/
def isDestroyImage : XCall → Bool
  | XCall.destroyImage _ _ => true
  | _ => false

/-- The call is an `XCreateImage`. -/
def isCreateImage : XCall → Bool
  | XCall.createImage _ _ _ _ => true
  | _ => false

/-- The `linux_x11_present_frame` call made in state `s` destroys a staging
image and creates a new one. -/
def rebuilds (s : X11State) (c : Canvas) : Bool :=
  (frame_calls s c).any isDestroyImage && (frame_calls s c).any isCreateImage

/-- No staging image exists, or its `data` field is `NULL`. -/
def staging_detached (s : X11State) : Bool :=
  match s.ximage with
  | none => true
  | some img => decide (img.data = 0)

/-- Every `XDestroyImage` issued so far found a `NULL` `data` field, so none
of them freed pixel memory. -/
def no_data_freed (s : X11State) : Bool :=
  s.xcalls.all fun call =>
    match call with
    | XCall.destroyImage _ data => decide (data = 0)
    | _ => true

/-- A running X11 backend right after a successful `linux_x11_init_app`:
display open, atom `WM_DELETE_WINDOW` = 7, nothing pressed, window open. -/
def x11_running : X11State :=
  { x11_initial with display := some 1, window := 2, wm_delete_window := 7, gc := 3 }

/-! ## Lemmas on the conversions -/

theorem natToFloat_of_le (n : Nat) (h : n ≤ 2 ^ 24) : natToFloat n = n := by
  rcases Nat.lt_or_ge n (2 ^ 24) with h1 | h1
  · unfold natToFloat
    rw [if_pos h1]
  · have h2 : n = 2 ^ 24 := Nat.le_antisymm h h1
    have hl : Nat.log2 (2 ^ 24) = 24 := Nat.log2_two_pow
    rw [h2]
    unfold natToFloat
    simp only [hl]
    norm_num

theorem intToFloat_exact (i : Int) (h1 : -(2 ^ 24) ≤ i) (h2 : i ≤ 2 ^ 24) : intToFloat i = i := by
  have hn : i.natAbs ≤ 2 ^ 24 := by omega
  unfold intToFloat
  rw [natToFloat_of_le _ hn]
  split_ifs with h <;> omega

/-! ## Lemmas on the X11 event switch -/

theorem poll_switch_ret (s : X11State) (e : XEvent) :
    (poll_switch s e).2 = isCloseRequest s e := by
  cases e <;> simp only [poll_switch, isCloseRequest] <;> (try split_ifs) <;> simp_all

theorem poll_switch_wm (s : X11State) (e : XEvent) :
    (poll_switch s e).1.wm_delete_window = s.wm_delete_window := by
  cases e <;> simp only [poll_switch] <;> split_ifs <;> rfl

theorem poll_switch_display (s : X11State) (e : XEvent) :
    (poll_switch s e).1.display = s.display := by
  cases e <;> simp only [poll_switch] <;> split_ifs <;> rfl

theorem poll_switch_ximage (s : X11State) (e : XEvent) :
    (poll_switch s e).1.ximage = s.ximage := by
  cases e <;> simp only [poll_switch] <;> split_ifs <;> rfl

theorem poll_switch_xcalls (s : X11State) (e : XEvent) :
    (poll_switch s e).1.xcalls = s.xcalls := by
  cases e <;> simp only [poll_switch] <;> split_ifs <;> rfl

theorem poll_switch_closed (s : X11State) (e : XEvent) :
    (poll_switch s e).1.window_closed = (s.window_closed || isCloseRequest s e) := by
  cases e <;> simp only [poll_switch, isCloseRequest] <;> (try split_ifs) <;> simp_all

theorem poll_switch_click (s : X11State) (e : XEvent) (h : isQualifyingPress e = false) :
    (poll_switch s e).1.last_click_x = s.last_click_x ∧
    (poll_switch s e).1.last_click_y = s.last_click_y := by
  cases e <;> simp only [poll_switch, isQualifyingPress] at * <;> (try split_ifs) <;> simp_all

theorem isCloseRequest_congr (s t : X11State) (h : t.wm_delete_window = s.wm_delete_window)
    (e : XEvent) : isCloseRequest t e = isCloseRequest s e := by
  cases e <;> simp [isCloseRequest, h]

theorem apply_events_cons (s : X11State) (e : XEvent) (q : List XEvent) :
    apply_events s (e :: q) = apply_events (poll_switch s e).1 q := rfl

theorem apply_events_wm (s : X11State) (q : List XEvent) :
    (apply_events s q).wm_delete_window = s.wm_delete_window := by
  induction q generalizing s with
  | nil => rfl
  | cons e q ih => rw [apply_events_cons, ih, poll_switch_wm]

theorem poll_loop_no_close (s : X11State) (q : List XEvent)
    (h : ∀ e ∈ q, isCloseRequest s e = false) :
    poll_loop s q = ⟨false, apply_events s q, []⟩ := by
  induction q generalizing s with
  | nil => rfl
  | cons e q ih =>
    have he : (poll_switch s e).2 = false := by
      rw [poll_switch_ret]; exact h e (List.mem_cons_self e q)
    have hq : ∀ e1 ∈ q, isCloseRequest (poll_switch s e).1 e1 = false := by
      intro e1 h1
      rw [isCloseRequest_congr s _ (poll_switch_wm s e)]
      exact h e1 (List.mem_cons_of_mem e h1)
    rw [apply_events_cons, ← ih _ hq]
    rw [poll_loop]
    split
    · rename_i s1 heq
      rw [heq] at he
      cases he
    · rename_i s1 heq
      rw [heq]

theorem poll_loop_close (s : X11State) (pre suf : List XEvent) (e : XEvent)
    (h : ∀ e1 ∈ pre, isCloseRequest s e1 = false) (he : isCloseRequest s e = true) :
    poll_loop s (pre ++ e :: suf) =
      ⟨true, { apply_events s pre with window_closed := true }, suf⟩ := by
  induction pre generalizing s with
  | nil =>
    have h2 : (poll_switch s e).2 = true := by rw [poll_switch_ret]; exact he
    cases e <;> simp only [isCloseRequest, Bool.false_eq_true] at he
    rename_i data0
    have hd : longToAtom data0 = s.wm_delete_window := by simpa using he
    simp [poll_loop, poll_switch, hd, apply_events]
  | cons e0 pre ih =>
    have h0 : (poll_switch s e0).2 = false := by
      rw [poll_switch_ret]; exact h e0 (List.mem_cons_self e0 pre)
    have hq : ∀ e1 ∈ pre, isCloseRequest (poll_switch s e0).1 e1 = false := by
      intro e1 h1
      rw [isCloseRequest_congr s _ (poll_switch_wm s e0)]
      exact h e1 (List.mem_cons_of_mem e0 h1)
    have he1 : isCloseRequest (poll_switch s e0).1 e = true := by
      rw [isCloseRequest_congr s _ (poll_switch_wm s e0)]; exact he
    rw [apply_events_cons, ← ih _ hq he1]
    rw [List.cons_append, poll_loop]
    split
    · rename_i s1 heq
      rw [heq] at h0
      cases h0
    · rename_i s1 heq
      rw [heq]

theorem poll_loop_cons (s : X11State) (e : XEvent) (rest : List XEvent) :
    poll_loop s (e :: rest) =
      if (poll_switch s e).2 = true then ⟨true, (poll_switch s e).1, rest⟩
      else poll_loop (poll_switch s e).1 rest := by
  rw [poll_loop]
  split
  · rename_i s1 heq
    simp [heq]
  · rename_i s1 heq
    simp [heq]

theorem poll_loop_append (s : X11State) (pre rest : List XEvent)
    (h : ∀ e ∈ pre, isCloseRequest s e = false) :
    poll_loop s (pre ++ rest) = poll_loop (apply_events s pre) rest := by
  induction pre generalizing s with
  | nil => rfl
  | cons e pre ih =>
    have he : (poll_switch s e).2 = false := by
      rw [poll_switch_ret]; exact h e (List.mem_cons_self e pre)
    have hq : ∀ e1 ∈ pre, isCloseRequest (poll_switch s e).1 e1 = false := by
      intro e1 h1
      rw [isCloseRequest_congr s _ (poll_switch_wm s e)]
      exact h e1 (List.mem_cons_of_mem e h1)
    rw [List.cons_append, poll_loop_cons, he, apply_events_cons, ← ih _ hq]
    simp

theorem poll_loop_any_close (s : X11State) (q : List XEvent)
    (h : q.any (isCloseRequest s) = true) :
    (poll_loop s q).ret = true ∧ (poll_loop s q).state.window_closed = true := by
  induction q generalizing s with
  | nil => simp at h
  | cons e q ih =>
    rw [poll_loop_cons]
    by_cases he : isCloseRequest s e = true
    · have h1 : (poll_switch s e).2 = true := by rw [poll_switch_ret]; exact he
      rw [if_pos h1]
      refine ⟨rfl, ?_⟩
      show (poll_switch s e).1.window_closed = true
      rw [poll_switch_closed, he]
      simp
    · have h1 : ¬ (poll_switch s e).2 = true := by rw [poll_switch_ret]; exact he
      rw [if_neg h1]
      apply ih
      rw [List.any_cons] at h
      have h2 : q.any (isCloseRequest s) = true := by
        simp only [Bool.not_eq_true] at he
        simpa [he] using h
      have hc : isCloseRequest (poll_switch s e).1 = isCloseRequest s :=
        funext (isCloseRequest_congr s _ (poll_switch_wm s e))
      rw [hc]
      exact h2

theorem poll_loop_click (s : X11State) (q : List XEvent)
    (h : ∀ e ∈ q, isQualifyingPress e = false) :
    (poll_loop s q).state.last_click_x = s.last_click_x ∧
    (poll_loop s q).state.last_click_y = s.last_click_y := by
  induction q generalizing s with
  | nil => exact ⟨rfl, rfl⟩
  | cons e q ih =>
    have h1 := poll_switch_click s e (h e (List.mem_cons_self e q))
    rw [poll_loop_cons]
    split_ifs
    · exact h1
    · have h2 := ih (poll_switch s e).1 (fun e1 he1 => h e1 (List.mem_cons_of_mem e he1))
      exact ⟨h2.1.trans h1.1, h2.2.trans h1.2⟩

theorem poll_events_empty (s : X11State) :
    linux_x11_poll_events s [] = ⟨s.display.isNone || s.window_closed, s, []⟩ := by
  unfold linux_x11_poll_events
  split_ifs with h1 h2
  · simp [h1]
  · simp [h2]
  · simp only [Bool.not_eq_true] at h1 h2
    simp [h1, h2, poll_loop]

theorem poll_events_closed (s : X11State) (q : List XEvent) (h : s.window_closed = true) :
    linux_x11_poll_events s q = ⟨true, s, q⟩ := by
  unfold linux_x11_poll_events
  split_ifs <;> rfl

theorem poll_events_running (s : X11State) (q : List XEvent) (hd : s.display.isSome = true)
    (hc : s.window_closed = false) : linux_x11_poll_events s q = poll_loop s q := by
  unfold linux_x11_poll_events
  have h1 : s.display.isNone = false := by
    cases hs : s.display <;> simp_all
  simp [h1, hc]

/-! ## Lemmas on `linux_x11_present_frame` -/

theorem present_frame_noop (s : X11State) (c : Canvas)
    (h : s.display.isNone = true ∨ s.window_closed = true) :
    linux_x11_present_frame s c = s := by
  unfold linux_x11_present_frame
  have h1 : (s.display.isNone || s.window_closed) = true := by
    rcases h with h | h <;> simp [h]
  rw [if_pos h1]

theorem present_validate_frame (s : X11State) (w h : Nat) :
    (present_validate s w h).display = s.display ∧
    (present_validate s w h).window_closed = s.window_closed ∧
    (present_validate s w h).keys = s.keys ∧
    (present_validate s w h).mouse_buttons = s.mouse_buttons ∧
    (present_validate s w h).last_click_x = s.last_click_x ∧
    (present_validate s w h).last_click_y = s.last_click_y ∧
    (present_validate s w h).wm_delete_window = s.wm_delete_window := by
  unfold present_validate
  split
  · split_ifs <;> simp
  · simp

theorem present_wrap_frame (s : X11State) (p w h : Nat) :
    (present_wrap s p w h).display = s.display ∧
    (present_wrap s p w h).window_closed = s.window_closed ∧
    (present_wrap s p w h).keys = s.keys ∧
    (present_wrap s p w h).mouse_buttons = s.mouse_buttons ∧
    (present_wrap s p w h).last_click_x = s.last_click_x ∧
    (present_wrap s p w h).last_click_y = s.last_click_y ∧
    (present_wrap s p w h).wm_delete_window = s.wm_delete_window := by
  unfold present_wrap
  split <;> simp

theorem present_put_frame (s : X11State) (w h : Nat) :
    (present_put s w h).display = s.display ∧
    (present_put s w h).window_closed = s.window_closed ∧
    (present_put s w h).keys = s.keys ∧
    (present_put s w h).mouse_buttons = s.mouse_buttons ∧
    (present_put s w h).last_click_x = s.last_click_x ∧
    (present_put s w h).last_click_y = s.last_click_y ∧
    (present_put s w h).wm_delete_window = s.wm_delete_window := by
  unfold present_put
  split <;> simp

theorem present_frame_frame (s : X11State) (c : Canvas) :
    (linux_x11_present_frame s c).display = s.display ∧
    (linux_x11_present_frame s c).window_closed = s.window_closed ∧
    (linux_x11_present_frame s c).keys = s.keys ∧
    (linux_x11_present_frame s c).mouse_buttons = s.mouse_buttons ∧
    (linux_x11_present_frame s c).last_click_x = s.last_click_x ∧
    (linux_x11_present_frame s c).last_click_y = s.last_click_y ∧
    (linux_x11_present_frame s c).wm_delete_window = s.wm_delete_window := by
  unfold linux_x11_present_frame
  split_ifs with h1
  · simp
  · have h3 := present_put_frame
      (present_wrap (present_validate s c.width c.height) c.pixels c.width c.height)
      c.width c.height
    have h2 := present_wrap_frame (present_validate s c.width c.height) c.pixels c.width c.height
    have h1 := present_validate_frame s c.width c.height
    simp only [present_detach]
    refine ⟨?_, ?_, ?_, ?_, ?_, ?_, ?_⟩
    · rw [h3.1, h2.1, h1.1]
    · rw [h3.2.1, h2.2.1, h1.2.1]
    · rw [h3.2.2.1, h2.2.2.1, h1.2.2.1]
    · rw [h3.2.2.2.1, h2.2.2.2.1, h1.2.2.2.1]
    · rw [h3.2.2.2.2.1, h2.2.2.2.2.1, h1.2.2.2.2.1]
    · rw [h3.2.2.2.2.2.1, h2.2.2.2.2.2.1, h1.2.2.2.2.2.1]
    · rw [h3.2.2.2.2.2.2, h2.2.2.2.2.2.2, h1.2.2.2.2.2.2]

/-! ## Lemmas on sequences of X11 calls -/

theorem init_app_frame (srv : XServer) (c : Canvas) (s s1 : X11State) (q rest : List XEvent)
    (h : linux_x11_init_app srv c s q = some (s1, rest)) :
    s1.window_closed = s.window_closed ∧ s1.keys = s.keys ∧
    s1.mouse_buttons = s.mouse_buttons ∧ s1.last_click_x = s.last_click_x ∧
    s1.last_click_y = s.last_click_y ∧ s1.ximage = s.ximage ∧
    s1.xcalls = s.xcalls ++ [XCall.createSimpleWindow
      (toUnsignedInt (if c.width = 0 then 800 else c.width))
      (toUnsignedInt (if c.height = 0 then 600 else c.height))] := by
  unfold linux_x11_init_app at h
  cases hd : srv.display with
  | none => simp [hd] at h
  | some d =>
    cases hw : waitMapNotify q with
    | none => simp [hd, hw] at h
    | some r =>
      simp only [hd, hw, Option.some.injEq, Prod.mk.injEq] at h
      obtain ⟨h1, -⟩ := h
      subst h1
      simp

theorem x11_step_closed (s s1 : X11State) (op : X11Op) (h : x11_step s op = some s1)
    (hc : s.window_closed = true) : s1.window_closed = true := by
  cases op with
  | init_app srv c q =>
    cases hr : linux_x11_init_app srv c s q with
    | none => simp [x11_step, hr] at h
    | some r =>
      obtain ⟨s2, rest⟩ := r
      simp only [x11_step, hr, Option.map_some', Option.some.injEq] at h
      subst h
      rw [(init_app_frame srv c s s2 q rest hr).1, hc]
  | poll_events q =>
    simp only [x11_step, Option.some.injEq] at h
    rw [← h, poll_events_closed s q hc, hc]
  | present_frame c =>
    simp only [x11_step, Option.some.injEq] at h
    rw [← h, (present_frame_frame s c).2.1, hc]
  | is_key_down k =>
    simp only [x11_step, linux_x11_is_key_down, Option.some.injEq] at h
    split_ifs at h <;> (rw [← h]; exact hc)
  | is_mouse_down b =>
    simp only [x11_step, linux_x11_is_mouse_down, Option.some.injEq] at h
    split_ifs at h <;> (rw [← h]; exact hc)
  | get_last_click_position x y =>
    simp only [x11_step, Option.some.injEq] at h
    rw [← h, hc]

theorem x11_run_cons (s : X11State) (op : X11Op) (ops : List X11Op) (s2 : X11State)
    (h : x11_run s (op :: ops) = some s2) :
    ∃ s1, x11_step s op = some s1 ∧ x11_run s1 ops = some s2 := by
  rw [x11_run] at h
  cases hs : x11_step s op with
  | none => simp [hs] at h
  | some s1 => exact ⟨s1, rfl, by simpa [hs] using h⟩

theorem x11_run_closed (s s1 : X11State) (ops : List X11Op) (h : x11_run s ops = some s1)
    (hc : s.window_closed = true) : s1.window_closed = true := by
  induction ops generalizing s with
  | nil =>
    simp only [x11_run, Option.some.injEq] at h
    rw [← h, hc]
  | cons op ops ih =>
    obtain ⟨s2, h1, h2⟩ := x11_run_cons s op ops s1 h
    exact ih s2 h2 (x11_step_closed s s2 op h1 hc)

theorem x11_step_click (s s1 : X11State) (op : X11Op) (h : x11_step s op = some s1)
    (hp : opHasNoPress op = true) :
    s1.last_click_x = s.last_click_x ∧ s1.last_click_y = s.last_click_y := by
  cases op with
  | init_app srv c q =>
    cases hr : linux_x11_init_app srv c s q with
    | none => simp [x11_step, hr] at h
    | some r =>
      obtain ⟨s2, rest⟩ := r
      simp only [x11_step, hr, Option.map_some', Option.some.injEq] at h
      subst h
      have hf := init_app_frame srv c s s2 q rest hr
      exact ⟨hf.2.2.2.1, hf.2.2.2.2.1⟩
  | poll_events q =>
    simp only [x11_step, Option.some.injEq] at h
    rw [← h]
    unfold linux_x11_poll_events
    split_ifs
    · exact ⟨rfl, rfl⟩
    · exact ⟨rfl, rfl⟩
    · apply poll_loop_click
      intro e he
      simp only [opHasNoPress, List.all_eq_true, Bool.not_eq_true'] at hp
      exact hp e he
  | present_frame c =>
    simp only [x11_step, Option.some.injEq] at h
    rw [← h]
    exact ⟨(present_frame_frame s c).2.2.2.2.1, (present_frame_frame s c).2.2.2.2.2.1⟩
  | is_key_down k =>
    simp only [x11_step, linux_x11_is_key_down, Option.some.injEq] at h
    split_ifs at h <;> (rw [← h]; exact ⟨rfl, rfl⟩)
  | is_mouse_down b =>
    simp only [x11_step, linux_x11_is_mouse_down, Option.some.injEq] at h
    split_ifs at h <;> (rw [← h]; exact ⟨rfl, rfl⟩)
  | get_last_click_position x y =>
    simp only [x11_step, Option.some.injEq] at h
    rw [← h]
    exact ⟨rfl, rfl⟩

theorem x11_run_click (s s1 : X11State) (ops : List X11Op) (h : x11_run s ops = some s1)
    (hp : ∀ op ∈ ops, opHasNoPress op = true) :
    s1.last_click_x = s.last_click_x ∧ s1.last_click_y = s.last_click_y := by
  induction ops generalizing s with
  | nil =>
    simp only [x11_run, Option.some.injEq] at h
    rw [← h]
    exact ⟨rfl, rfl⟩
  | cons op ops ih =>
    obtain ⟨s2, h1, h2⟩ := x11_run_cons s op ops s1 h
    have h3 := x11_step_click s s2 op h1 (hp op (List.mem_cons_self op ops))
    have h4 := ih s2 h2 (fun o ho => hp o (List.mem_cons_of_mem op ho))
    exact ⟨h4.1.trans h3.1, h4.2.trans h3.2⟩

/-! ## Lemmas on the Win32 message loop -/

theorem WndProc_switch_should_quit (s : Win32State) (msg : Nat) (lParam : Int) :
    (WndProc_switch s msg lParam).1.should_quit = (s.should_quit || decide (msg = WM_CLOSE)) := by
  unfold WndProc_switch
  split_ifs with h1 h2 h3 h4 <;> simp [h1]

theorem WndProc_switch_default (s : Win32State) (msg : Nat) (lParam : Int) :
    (WndProc_switch s msg lParam).2 = !isHandled msg := by
  unfold WndProc_switch isHandled
  split_ifs with h1 h2 h3 h4
  · simp [h1]
  · simp [h2]
  · rcases h3 with h | h | h <;> simp [h]
  · simp [h4]
  · simp only [not_or] at h3
    simp [h1, h2, h3.1, h3.2.1, h3.2.2, h4]

theorem WndProc_switch_click (s : Win32State) (msg : Nat) (lParam : Int)
    (h : isButtonDown msg = false) :
    (WndProc_switch s msg lParam).1.last_click_x = s.last_click_x ∧
    (WndProc_switch s msg lParam).1.last_click_y = s.last_click_y := by
  unfold WndProc_switch
  simp only [isButtonDown, decide_eq_false_iff_not] at h
  split_ifs <;> exact ⟨rfl, rfl⟩

theorem DefWindowProc_should_quit (s : Win32State) (sent : List MSG) :
    (DefWindowProc s sent).should_quit =
      (s.should_quit || sent.any fun n => decide (n.message = WM_CLOSE)) := by
  induction sent generalizing s with
  | nil => simp [DefWindowProc]
  | cons n rest ih =>
    have h : DefWindowProc s (n :: rest) =
        DefWindowProc (WndProc_switch s n.message n.lParam).1 rest := rfl
    rw [h, ih, WndProc_switch_should_quit, List.any_cons, Bool.or_assoc]

theorem DefWindowProc_click (s : Win32State) (sent : List MSG)
    (h : ∀ n ∈ sent, isButtonDown n.message = false) :
    (DefWindowProc s sent).last_click_x = s.last_click_x ∧
    (DefWindowProc s sent).last_click_y = s.last_click_y := by
  induction sent generalizing s with
  | nil => exact ⟨rfl, rfl⟩
  | cons n rest ih =>
    have h0 : DefWindowProc s (n :: rest) =
        DefWindowProc (WndProc_switch s n.message n.lParam).1 rest := rfl
    have h1 := WndProc_switch_click s n.message n.lParam (h n (List.mem_cons_self n rest))
    have h2 := ih (WndProc_switch s n.message n.lParam).1
      (fun x hx => h x (List.mem_cons_of_mem n hx))
    rw [h0]
    exact ⟨h2.1.trans h1.1, h2.2.trans h1.2⟩

theorem WndProc_eq (s : Win32State) (hwnd msg wParam : Nat) (lParam : Int) (sent : List MSG) :
    WndProc s hwnd msg wParam lParam sent =
      if isHandled msg = true then (WndProc_switch s msg lParam).1
      else DefWindowProc (WndProc_switch s msg lParam).1 sent := by
  have h := WndProc_switch_default s msg lParam
  unfold WndProc
  split
  · rename_i s1 heq
    rw [heq] at h
    have h1 : isHandled msg = true := by simpa using h.symm
    simp [h1, heq]
  · rename_i s1 heq
    rw [heq] at h
    have h1 : isHandled msg = false := by simpa using h.symm
    simp [h1, heq]

theorem WndProc_should_quit (s : Win32State) (hwnd msg wParam : Nat) (lParam : Int)
    (sent : List MSG) :
    (WndProc s hwnd msg wParam lParam sent).should_quit =
      (s.should_quit || receivesClose msg sent) := by
  rw [WndProc_eq]
  unfold receivesClose
  split_ifs with h
  · rw [WndProc_switch_should_quit, h]
    simp
  · simp only [Bool.not_eq_true] at h
    rw [DefWindowProc_should_quit, WndProc_switch_should_quit, h]
    simp [Bool.or_assoc]

theorem WndProc_click (s : Win32State) (hwnd msg wParam : Nat) (lParam : Int)
    (sent : List MSG) (h : noButtonDown ⟨hwnd, msg, wParam, lParam⟩ sent = true) :
    (WndProc s hwnd msg wParam lParam sent).last_click_x = s.last_click_x ∧
    (WndProc s hwnd msg wParam lParam sent).last_click_y = s.last_click_y := by
  simp only [noButtonDown, Bool.and_eq_true, Bool.not_eq_true', List.all_eq_true] at h
  have h1 := WndProc_switch_click s msg lParam h.1
  rw [WndProc_eq]
  split_ifs
  · exact h1
  · have h2 := DefWindowProc_click (WndProc_switch s msg lParam).1 sent h.2
    exact ⟨h2.1.trans h1.1, h2.2.trans h1.2⟩

theorem DispatchMessage_should_quit (s : Win32State) (m : Pending) :
    (DispatchMessage s m).should_quit =
      (s.should_quit || (m.facet && receivesClose m.msg.message m.sent)) := by
  unfold DispatchMessage
  split_ifs with h
  · rw [WndProc_should_quit, h]; simp
  · simp [h]

theorem peek_loop_cons (s : Win32State) (done : List Pending) (m : Pending) (rest : List Pending) :
    peek_loop s done (m :: rest) =
      peek_loop
        (DispatchMessage (if m.msg.message = WM_QUIT then { s with should_quit := true } else s) m)
        (done ++ [m]) rest := rfl

theorem peek_loop_should_quit (s : Win32State) (done q : List Pending) :
    (peek_loop s done q).1.should_quit = (s.should_quit || q.any isWinClose) := by
  induction q generalizing s done with
  | nil => simp [peek_loop]
  | cons m rest ih =>
    rw [peek_loop_cons, ih, DispatchMessage_should_quit, List.any_cons]
    simp only [isWinClose]
    by_cases hq : m.msg.message = WM_QUIT
    · simp [hq]
    · simp [hq, Bool.or_assoc]

theorem win32_step_quit (s : Win32State) (op : Win32Op) (h : s.should_quit = true) :
    (win32_step s op).should_quit = true := by
  cases op with
  | init_app created => exact h
  | wndProc m sent => simp only [win32_step]; rw [WndProc_should_quit, h]; rfl
  | poll_events q =>
    simp only [win32_step, windows_poll_events]
    rw [peek_loop_should_quit, h]; rfl
  | present_frame c =>
    simp only [win32_step, windows_present_frame]
    split_ifs <;> exact h
  | is_key_down k => exact h
  | is_mouse_down b => exact h
  | get_last_click_position => exact h
  | get_mouse_position => exact h

theorem win32_run_quit (s : Win32State) (ops : List Win32Op) (h : s.should_quit = true) :
    (win32_run s ops).should_quit = true := by
  induction ops generalizing s with
  | nil => exact h
  | cons op ops ih => exact ih _ (win32_step_quit s op h)

theorem win32_step_observes (s : Win32State) (op : Win32Op) (h : winOpObservesClose op = true) :
    (win32_step s op).should_quit = true := by
  cases op with
  | wndProc m sent =>
    simp only [winOpObservesClose] at h
    simp only [win32_step]
    rw [WndProc_should_quit, h]; simp
  | poll_events q =>
    simp only [winOpObservesClose] at h
    simp only [win32_step, windows_poll_events]
    rw [peek_loop_should_quit, h]; simp
  | init_app created => simp [winOpObservesClose] at h
  | present_frame c => simp [winOpObservesClose] at h
  | is_key_down k => simp [winOpObservesClose] at h
  | is_mouse_down b => simp [winOpObservesClose] at h
  | get_last_click_position => simp [winOpObservesClose] at h
  | get_mouse_position => simp [winOpObservesClose] at h

theorem DispatchMessage_click (s : Win32State) (m : Pending)
    (h : noButtonDown m.msg m.sent = true) :
    (DispatchMessage s m).last_click_x = s.last_click_x ∧
    (DispatchMessage s m).last_click_y = s.last_click_y := by
  unfold DispatchMessage
  split_ifs
  · exact WndProc_click s m.msg.hwnd m.msg.message m.msg.wParam m.msg.lParam m.sent h
  · exact ⟨rfl, rfl⟩

theorem peek_loop_click (s : Win32State) (done q : List Pending)
    (h : ∀ m ∈ q, noButtonDown m.msg m.sent = true) :
    (peek_loop s done q).1.last_click_x = s.last_click_x ∧
    (peek_loop s done q).1.last_click_y = s.last_click_y := by
  induction q generalizing s done with
  | nil => exact ⟨rfl, rfl⟩
  | cons m rest ih =>
    rw [peek_loop_cons]
    have h1 := ih (DispatchMessage (if m.msg.message = WM_QUIT then
      { s with should_quit := true } else s) m) (done ++ [m])
      (fun x hx => h x (List.mem_cons_of_mem m hx))
    have h2 := DispatchMessage_click (if m.msg.message = WM_QUIT then
      { s with should_quit := true } else s) m (h m (List.mem_cons_self m rest))
    have h3 : (if m.msg.message = WM_QUIT then
        ({ s with should_quit := true } : Win32State) else s).last_click_x = s.last_click_x ∧
        (if m.msg.message = WM_QUIT then
        ({ s with should_quit := true } : Win32State) else s).last_click_y = s.last_click_y := by
      split_ifs <;> exact ⟨rfl, rfl⟩
    exact ⟨h1.1.trans (h2.1.trans h3.1), h1.2.trans (h2.2.trans h3.2)⟩

theorem win32_step_click (s : Win32State) (op : Win32Op) (h : winOpHasNoPress op = true) :
    (win32_step s op).last_click_x = s.last_click_x ∧
    (win32_step s op).last_click_y = s.last_click_y := by
  cases op with
  | init_app created => exact ⟨rfl, rfl⟩
  | wndProc m sent =>
    simp only [winOpHasNoPress] at h
    exact WndProc_click s m.hwnd m.message m.wParam m.lParam sent h
  | poll_events q =>
    simp only [winOpHasNoPress, List.all_eq_true] at h
    simp only [win32_step, windows_poll_events]
    exact peek_loop_click s [] q h
  | present_frame c =>
    simp only [win32_step, windows_present_frame]
    split_ifs <;> exact ⟨rfl, rfl⟩
  | is_key_down k => exact ⟨rfl, rfl⟩
  | is_mouse_down b => exact ⟨rfl, rfl⟩
  | get_last_click_position => exact ⟨rfl, rfl⟩
  | get_mouse_position => exact ⟨rfl, rfl⟩

theorem win32_run_click (s : Win32State) (ops : List Win32Op)
    (h : ∀ op ∈ ops, winOpHasNoPress op = true) :
    (win32_run s ops).last_click_x = s.last_click_x ∧
    (win32_run s ops).last_click_y = s.last_click_y := by
  induction ops generalizing s with
  | nil => exact ⟨rfl, rfl⟩
  | cons op ops ih =>
    have h1 := win32_step_click s op (h op (List.mem_cons_self op ops))
    have h2 := ih (win32_step s op) (fun o ho => h o (List.mem_cons_of_mem op ho))
    exact ⟨h2.1.trans h1.1, h2.2.trans h1.2⟩

/-! ## The claims -/

/-- C1. Close latch, X11 and Win32.  X11: when `linux_x11_poll_events` runs on
an open display with a close request in its queue (a `ClientMessage` whose
data equals `wm_delete_window`), that call returns true, and after any further
sequence of calls `ops` (polls over arbitrary queues, presents, queries,
re-initialisation) the closed flag is still set and `linux_x11_poll_events`
returns true on every queue `q1`, reading nothing.  Win32: when an entry `op0`
observes a close request (`WM_CLOSE` reaches `WndProc`, dispatched or passed
on by `DefWindowProc`, or `windows_poll_events` sees `WM_QUIT`),
then after any further sequence of entries `wops` the flag `should_quit` is
still set and `windows_poll_events` returns true on every queue `wq`. -/
theorem close_latch (s : X11State) (q : List XEvent) (ops : List X11Op) (s1 : X11State)
    (q1 : List XEvent) (w : Win32State) (op0 : Win32Op) (wops : List Win32Op)
    (wq : List Pending)
    (hd : s.display.isSome = true) (hq : q.any (isCloseRequest s) = true)
    (hrun : x11_run (linux_x11_poll_events s q).state ops = some s1)
    (hw : winOpObservesClose op0 = true) :
    ((linux_x11_poll_events s q).ret = true ∧ s1.window_closed = true ∧
      linux_x11_poll_events s1 q1 = ⟨true, s1, q1⟩) ∧
    ((win32_run (win32_step w op0) wops).should_quit = true ∧
      (windows_poll_events (win32_run (win32_step w op0) wops) wq).ret = true) := by
  have hx : (linux_x11_poll_events s q).ret = true ∧
      (linux_x11_poll_events s q).state.window_closed = true := by
    cases hc : s.window_closed with
    | true => rw [poll_events_closed s q hc]; exact ⟨rfl, hc⟩
    | false => rw [poll_events_running s q hd hc]; exact poll_loop_any_close s q hq
  have h1 : s1.window_closed = true := x11_run_closed _ s1 ops hrun hx.2
  have h2 : (win32_run (win32_step w op0) wops).should_quit = true :=
    win32_run_quit _ wops (win32_step_observes w op0 hw)
  refine ⟨⟨hx.1, h1, poll_events_closed s1 q1 h1⟩, h2, ?_⟩
  show (peek_loop _ [] wq).1.should_quit = true
  rw [peek_loop_should_quit, h2]
  rfl

theorem close_latch_witness :
    x11_running.display.isSome = true ∧
    [XEvent.keyPress 5, XEvent.clientMessage 7, XEvent.keyPress 6].any
      (isCloseRequest x11_running) = true ∧
    ((linux_x11_poll_events x11_running
        [XEvent.keyPress 5, XEvent.clientMessage 7, XEvent.keyPress 6]).ret = true ∧
      (linux_x11_poll_events (linux_x11_poll_events x11_running
        [XEvent.keyPress 5, XEvent.clientMessage 7, XEvent.keyPress 6]).state
        [XEvent.keyPress 6]).state.window_closed = true ∧
      linux_x11_poll_events (linux_x11_poll_events (linux_x11_poll_events x11_running
        [XEvent.keyPress 5, XEvent.clientMessage 7, XEvent.keyPress 6]).state
        [XEvent.keyPress 6]).state [XEvent.keyRelease 5] =
        ⟨true, (linux_x11_poll_events (linux_x11_poll_events x11_running
        [XEvent.keyPress 5, XEvent.clientMessage 7, XEvent.keyPress 6]).state
        [XEvent.keyPress 6]).state, [XEvent.keyRelease 5]⟩) ∧
    ((win32_run (win32_step win32_initial (Win32Op.poll_events [⟨⟨1, WM_CLOSE, 0, 0⟩, true, []⟩]))
        [Win32Op.poll_events [⟨⟨1, WM_MOUSEMOVE, 0, 0⟩, true, []⟩]]).should_quit = true ∧
      (windows_poll_events
        (win32_run (win32_step win32_initial (Win32Op.poll_events [⟨⟨1, WM_CLOSE, 0, 0⟩, true, []⟩]))
          [Win32Op.poll_events [⟨⟨1, WM_MOUSEMOVE, 0, 0⟩, true, []⟩]]) []).ret = true) :=
  ⟨rfl, by decide,
    close_latch x11_running [XEvent.keyPress 5, XEvent.clientMessage 7, XEvent.keyPress 6]
      [X11Op.poll_events [XEvent.keyPress 6]] _ [XEvent.keyRelease 5]
      win32_initial (Win32Op.poll_events [⟨⟨1, WM_CLOSE, 0, 0⟩, true, []⟩])
      [Win32Op.poll_events [⟨⟨1, WM_MOUSEMOVE, 0, 0⟩, true, []⟩]] []
      rfl (by decide) rfl (by decide)⟩

/-- C2. X11 last-click position.  In a running, open backend, let the queue of
one `linux_x11_poll_events` call be `pre ++ [ButtonPress b at (px, py)] ++ later`,
where `pre` holds no close request (so the press is processed), `b` is 1, 2 or
3, `(px, py)` are window coordinates, and `later` holds no `ButtonPress` with
a button in 1..3 (it may hold releases, presses of button 0 or of buttons from
4 up, key events, `ConfigureNotify`, a close request); let `ops` be any
further calls whose queues hold no such press.  Then
`linux_x11_get_last_click_position` returns exactly `(px, py)` after that
call and still does after `ops`. -/
theorem last_click_after_press (s : X11State) (pre later : List XEvent) (b : Nat)
    (px py : Int) (ops : List X11Op) (s1 : X11State) (x y : Int)
    (hd : s.display.isSome = true) (hc : s.window_closed = false)
    (hpre : ∀ e ∈ pre, isCloseRequest s e = false)
    (hb : 1 ≤ b ∧ b ≤ 3)
    (hpx : isWindowCoordinate px = true) (hpy : isWindowCoordinate py = true)
    (hlater : ∀ e ∈ later, isQualifyingPress e = false)
    (hops : ∀ op ∈ ops, opHasNoPress op = true)
    (hrun : x11_run
      (linux_x11_poll_events s (pre ++ XEvent.buttonPress b px py :: later)).state ops
        = some s1) :
    linux_x11_get_last_click_position
      (linux_x11_poll_events s (pre ++ XEvent.buttonPress b px py :: later)).state
      (some x) (some y) = (some px, some py) ∧
    linux_x11_get_last_click_position s1 (some x) (some y) = (some px, some py) := by
  have h0 : (linux_x11_poll_events s (pre ++ XEvent.buttonPress b px py :: later)).state.last_click_x
        = px ∧
      (linux_x11_poll_events s (pre ++ XEvent.buttonPress b px py :: later)).state.last_click_y
        = py := by
    rw [poll_events_running s _ hd hc, poll_loop_append s pre _ hpre, poll_loop_cons]
    have hr : (poll_switch (apply_events s pre) (XEvent.buttonPress b px py)).2 = false := by
      rw [poll_switch_ret]; rfl
    rw [hr]
    simp only [Bool.false_eq_true, if_false]
    have h1 := poll_loop_click (poll_switch (apply_events s pre) (XEvent.buttonPress b px py)).1
      later hlater
    rw [h1.1, h1.2]
    simp only [poll_switch, hb, and_self, dite_true]
    simp only [isWindowCoordinate, decide_eq_true_eq] at hpx hpy
    exact ⟨intToFloat_exact px (by omega) (by omega), intToFloat_exact py (by omega) (by omega)⟩
  have h2 := x11_run_click _ s1 ops hrun hops
  simp only [linux_x11_get_last_click_position, Option.map_some']
  rw [h2.1, h2.2, h0.1, h0.2]
  exact ⟨rfl, rfl⟩

theorem last_click_after_press_witness :
    linux_x11_get_last_click_position
      (linux_x11_poll_events x11_running
        ([XEvent.keyPress 5] ++ XEvent.buttonPress 1 10 20 ::
          [XEvent.buttonRelease 1 11 21, XEvent.buttonPress 4 1 1, XEvent.buttonPress 0 2 2,
            XEvent.keyRelease 5, XEvent.configureNotify])).state
      (some 0) (some 0) = (some 10, some 20) ∧
    linux_x11_get_last_click_position
      (linux_x11_poll_events
        (linux_x11_poll_events x11_running
          ([XEvent.keyPress 5] ++ XEvent.buttonPress 1 10 20 ::
            [XEvent.buttonRelease 1 11 21, XEvent.buttonPress 4 1 1, XEvent.buttonPress 0 2 2,
              XEvent.keyRelease 5, XEvent.configureNotify])).state
        [XEvent.buttonRelease 1 30 40]).state
      (some 0) (some 0) = (some 10, some 20) :=
  last_click_after_press x11_running [XEvent.keyPress 5]
    [XEvent.buttonRelease 1 11 21, XEvent.buttonPress 4 1 1, XEvent.buttonPress 0 2 2,
      XEvent.keyRelease 5, XEvent.configureNotify]
    1 10 20 [X11Op.poll_events [XEvent.buttonRelease 1 30 40]] _ 0 0
    rfl rfl (by decide) (by decide) (by decide) (by decide) (by decide) (by decide) rfl

/-- C3, as stated, fails: in the initial state (display never opened) a
`linux_x11_poll_events` call on an empty queue returns true, not false, and it
does so as well in a running state whose window is closed. -/
theorem poll_empty_counterexample :
    (linux_x11_poll_events x11_initial []).ret = true ∧
    (linux_x11_poll_events { x11_running with window_closed := true } []).ret = true ∧
    ¬ (∀ s : X11State, (linux_x11_poll_events s []).ret = false) := by
  refine ⟨rfl, rfl, ?_⟩
  intro h
  have h1 := h x11_initial
  simp [linux_x11_poll_events, x11_initial] at h1

/-- C3, amended.  For every backend state and every `n`, calling
`linux_x11_poll_events` `n` times with an empty queue leaves the whole state
unchanged and returns the same flag every time: false when the backend is
running and its window is not closed, true when it is uninitialised or
closed. -/
theorem poll_empty_idempotent (s : X11State) (n : Nat) :
    poll_repeat_empty s n = (List.replicate n (s.display.isNone || s.window_closed), s) ∧
    (linux_x11_poll_events s []).state = s ∧
    (linux_x11_poll_events s []).ret = (s.display.isNone || s.window_closed) := by
  refine ⟨?_, ?_, ?_⟩
  · induction n with
    | zero => rfl
    | succ n ih =>
      rw [poll_repeat_empty]
      simp only [poll_events_empty, ih, List.replicate_succ]
  · rw [poll_events_empty]
  · rw [poll_events_empty]

/-- C5. Default click position.  From the initial state of each backend,
after any sequence of calls that brings no qualifying button press (X11: no
`ButtonPress` with button 1..3 in a polled queue; Win32: no `WM_LBUTTONDOWN`,
`WM_RBUTTONDOWN` or `WM_MBUTTONDOWN`, dispatched or sent; Wayland stub: any
sequence), `get_last_click_position` writes 0 through each non-null pointer. -/
theorem default_click_position (xops : List X11Op) (sx : X11State) (x y : Option Int)
    (wops : List Win32Op) (lops : List WaylandOp) (u : Unit) (lx ly : Option Int)
    (hx : ∀ op ∈ xops, opHasNoPress op = true)
    (hrun : x11_run x11_initial xops = some sx)
    (hw : ∀ op ∈ wops, winOpHasNoPress op = true)
    (_hl : wayland_run () lops = some u) :
    linux_x11_get_last_click_position sx x y = (x.map fun _ => 0, y.map fun _ => 0) ∧
    windows_get_last_click_position (win32_run win32_initial wops) = (0, 0) ∧
    linux_wayland_get_last_click_position lx ly = (lx.map fun _ => 0, ly.map fun _ => 0) := by
  have h1 := x11_run_click x11_initial sx xops hrun hx
  have h2 := win32_run_click win32_initial wops hw
  refine ⟨?_, ?_, rfl⟩
  · simp only [linux_x11_get_last_click_position]
    rw [h1.1, h1.2]
    rfl
  · simp only [windows_get_last_click_position]
    rw [h2.1, h2.2]
    rfl

theorem default_click_position_witness :
    linux_x11_get_last_click_position
      (linux_x11_present_frame
        (linux_x11_poll_events
          { x11_initial with
            display := some 1, screen := 0, window := 2, wm_delete_window := 7, gc := 3,
            xcalls := [] ++ [XCall.createSimpleWindow (toUnsignedInt 800) (toUnsignedInt 600)] }
          [XEvent.buttonPress 5 3 4, XEvent.keyPress 9, XEvent.buttonRelease 1 3 4]).state
        ⟨100, 4, 4⟩)
      (some 9) (some 9) = (some 0, some 0) ∧
    windows_get_last_click_position
      (win32_run win32_initial
        [Win32Op.init_app 1, Win32Op.poll_events [⟨⟨1, WM_MOUSEMOVE, 0, 65537⟩, true, []⟩],
          Win32Op.present_frame ⟨100, 4, 4⟩]) = (0, 0) ∧
    linux_wayland_get_last_click_position (some 9) (some 9) = (some 0, some 0) :=
  default_click_position
    [X11Op.init_app ⟨some 1, 0, 2, 7, 3⟩ ⟨100, 0, 0⟩ [XEvent.other 12, XEvent.mapNotify],
      X11Op.poll_events [XEvent.buttonPress 5 3 4, XEvent.keyPress 9, XEvent.buttonRelease 1 3 4],
      X11Op.present_frame ⟨100, 4, 4⟩] _ (some 9) (some 9)
    [Win32Op.init_app 1, Win32Op.poll_events [⟨⟨1, WM_MOUSEMOVE, 0, 65537⟩, true, []⟩],
      Win32Op.present_frame ⟨100, 4, 4⟩]
    [WaylandOp.poll_events, WaylandOp.present_frame, WaylandOp.is_key_down 3] () (some 9) (some 9)
    (by decide) rfl (by decide) rfl

/-- C6. X11 bounds-checked queries.  `linux_x11_is_key_down` returns false for
every key code `k` from 512 up and `linux_x11_is_mouse_down` returns false for
every button index `b` from 3 up; for in-range arguments `kin < 512` and
`bin < 3` they return the stored table entry; and in all four cases the state
after the query is the state before it. -/
theorem queries_bounds_checked (s : X11State) (k b kin bin : Nat)
    (hk : 512 ≤ k) (hb : 3 ≤ b) (hkin : kin < 512) (hbin : bin < 3) :
    linux_x11_is_key_down s k = (false, s) ∧
    linux_x11_is_mouse_down s b = (false, s) ∧
    linux_x11_is_key_down s kin = (s.keys ⟨kin, hkin⟩, s) ∧
    linux_x11_is_mouse_down s bin = (s.mouse_buttons ⟨bin, hbin⟩, s) := by
  have h1 : ¬ k < 512 := by omega
  have h2 : ¬ b < 3 := by omega
  refine ⟨?_, ?_, ?_, ?_⟩
  · simp [linux_x11_is_key_down, h1]
  · simp [linux_x11_is_mouse_down, h2]
  · simp [linux_x11_is_key_down, hkin]
  · simp [linux_x11_is_mouse_down, hbin]

theorem queries_bounds_checked_witness :
    linux_x11_is_key_down (apply_events x11_running [XEvent.keyPress 5]) 512 =
      (false, apply_events x11_running [XEvent.keyPress 5]) ∧
    linux_x11_is_mouse_down (apply_events x11_running [XEvent.keyPress 5]) 3 =
      (false, apply_events x11_running [XEvent.keyPress 5]) ∧
    linux_x11_is_key_down (apply_events x11_running [XEvent.keyPress 5]) 5 =
      ((apply_events x11_running [XEvent.keyPress 5]).keys ⟨5, by decide⟩,
        apply_events x11_running [XEvent.keyPress 5]) ∧
    linux_x11_is_mouse_down (apply_events x11_running [XEvent.keyPress 5]) 2 =
      ((apply_events x11_running [XEvent.keyPress 5]).mouse_buttons ⟨2, by decide⟩,
        apply_events x11_running [XEvent.keyPress 5]) :=
  queries_bounds_checked (apply_events x11_running [XEvent.keyPress 5]) 512 3 5 2
    (by decide) (by decide) (by decide) (by decide)

/-! ## Key table -/

theorem poll_switch_keys (s : X11State) (e : XEvent) (k : Nat) (hk : k < 512) :
    (poll_switch s e).1.keys ⟨k, hk⟩ = (keyEventFor k e).getD (s.keys ⟨k, hk⟩) := by
  cases e with
  | keyPress kc =>
    simp only [poll_switch, keyEventFor]
    by_cases h : kc < 512
    · by_cases h1 : kc = k
      · subst h1; simp [h]
      · have h2 : (⟨k, hk⟩ : Fin 512) ≠ ⟨kc, h⟩ := by
          intro h3; exact h1 (Fin.mk.inj h3).symm
        simp [h, h1, Function.update_noteq h2]
    · have h1 : kc ≠ k := by omega
      simp [h, h1]
  | keyRelease kc =>
    simp only [poll_switch, keyEventFor]
    by_cases h : kc < 512
    · by_cases h1 : kc = k
      · subst h1; simp [h]
      · have h2 : (⟨k, hk⟩ : Fin 512) ≠ ⟨kc, h⟩ := by
          intro h3; exact h1 (Fin.mk.inj h3).symm
        simp [h, h1, Function.update_noteq h2]
    · have h1 : kc ≠ k := by omega
      simp [h, h1]
  | clientMessage d => simp only [poll_switch, keyEventFor]; split_ifs <;> rfl
  | buttonPress b x y => simp only [poll_switch, keyEventFor]; split_ifs <;> rfl
  | buttonRelease b x y => simp only [poll_switch, keyEventFor]; split_ifs <;> rfl
  | configureNotify => rfl
  | mapNotify => rfl
  | other t => rfl

theorem apply_events_snoc (s : X11State) (q : List XEvent) (e : XEvent) :
    apply_events s (q ++ [e]) = (poll_switch (apply_events s q) e).1 := by
  simp [apply_events, List.foldl_append]

theorem apply_events_keys (s : X11State) (q : List XEvent) (k : Nat) (hk : k < 512) :
    (apply_events s q).keys ⟨k, hk⟩ = (spec_last_key_event k q).getD (s.keys ⟨k, hk⟩) := by
  induction q using List.reverseRecOn with
  | nil => rfl
  | append_singleton q e ih =>
    rw [apply_events_snoc, poll_switch_keys, ih]
    simp only [spec_last_key_event, List.reverse_append, List.reverse_cons, List.reverse_nil,
      List.nil_append, List.singleton_append, List.findSome?_cons]
    cases keyEventFor k e <;> rfl

/-- C7. X11 key tracking.  In a running, open backend, on a queue with no
close request, `linux_x11_poll_events` returns false with the queue read to
the end, and afterwards `linux_x11_is_key_down k`, for `k < 512`, is true when
the last `KeyPress`/`KeyRelease` of the queue with keycode `k` was a press,
false when it was a release, and what it was before the call when the queue
has no key event for `k`.  A key event with keycode `kc >= 512` changes no
part of the state. -/
theorem key_tracking (s : X11State) (q : List XEvent) (k kc : Nat)
    (hd : s.display.isSome = true) (hc : s.window_closed = false)
    (hq : ∀ e ∈ q, isCloseRequest s e = false) (hk : k < 512) (hkc : 512 ≤ kc) :
    (linux_x11_poll_events s q).ret = false ∧
    (linux_x11_poll_events s q).queue = [] ∧
    (linux_x11_is_key_down (linux_x11_poll_events s q).state k).1 =
      (match spec_last_key_event k q with
       | some pressed => pressed
       | none => (linux_x11_is_key_down s k).1) ∧
    (poll_switch s (XEvent.keyPress kc)).1 = s ∧
    (poll_switch s (XEvent.keyRelease kc)).1 = s ∧
    (linux_x11_poll_events s [XEvent.keyPress kc, XEvent.keyRelease kc]).state = s := by
  have hnk : ¬ kc < 512 := by omega
  rw [poll_events_running s q hd hc, poll_loop_no_close s q hq,
    poll_events_running s _ hd hc]
  refine ⟨rfl, rfl, ?_, ?_, ?_, ?_⟩
  · simp only [linux_x11_is_key_down, hk, dite_true]
    rw [apply_events_keys]
    cases spec_last_key_event k q <;> rfl
  · simp [poll_switch, hnk]
  · simp [poll_switch, hnk]
  · simp [poll_loop, poll_switch, hnk]

theorem key_tracking_witness :
    (linux_x11_poll_events x11_running
      [XEvent.keyPress 5, XEvent.keyPress 600, XEvent.keyRelease 5, XEvent.keyPress 5,
        XEvent.clientMessage 8]).ret = false ∧
    (linux_x11_poll_events x11_running
      [XEvent.keyPress 5, XEvent.keyPress 600, XEvent.keyRelease 5, XEvent.keyPress 5,
        XEvent.clientMessage 8]).queue = [] ∧
    (linux_x11_is_key_down (linux_x11_poll_events x11_running
      [XEvent.keyPress 5, XEvent.keyPress 600, XEvent.keyRelease 5, XEvent.keyPress 5,
        XEvent.clientMessage 8]).state 5).1 =
      (match spec_last_key_event 5
        [XEvent.keyPress 5, XEvent.keyPress 600, XEvent.keyRelease 5, XEvent.keyPress 5,
          XEvent.clientMessage 8] with
       | some pressed => pressed
       | none => (linux_x11_is_key_down x11_running 5).1) ∧
    (poll_switch x11_running (XEvent.keyPress 600)).1 = x11_running ∧
    (poll_switch x11_running (XEvent.keyRelease 600)).1 = x11_running ∧
    (linux_x11_poll_events x11_running [XEvent.keyPress 600, XEvent.keyRelease 600]).state
      = x11_running :=
  key_tracking x11_running
    [XEvent.keyPress 5, XEvent.keyPress 600, XEvent.keyRelease 5, XEvent.keyPress 5,
      XEvent.clientMessage 8] 5 600 rfl rfl (by decide) (by decide) (by decide)

/-- C8, as stated, fails in a running state whose window is already closed:
with the queue `[KeyPress 5, close request, KeyPress 6]` the call returns true
at once, key 5 stays up although processing the prefix `[KeyPress 5]` puts it
down, and the whole queue, not only the suffix, is left unread. -/
theorem early_exit_counterexample :
    ({ x11_running with window_closed := true } : X11State).display.isSome = true ∧
    (∀ e ∈ [XEvent.keyPress 5],
      isCloseRequest { x11_running with window_closed := true } e = false) ∧
    isCloseRequest { x11_running with window_closed := true } (XEvent.clientMessage 7) = true ∧
    (linux_x11_poll_events { x11_running with window_closed := true }
      ([XEvent.keyPress 5] ++ XEvent.clientMessage 7 :: [XEvent.keyPress 6])).state.keys 5
        = false ∧
    (apply_events { x11_running with window_closed := true } [XEvent.keyPress 5]).keys 5
        = true ∧
    (linux_x11_poll_events { x11_running with window_closed := true }
      ([XEvent.keyPress 5] ++ XEvent.clientMessage 7 :: [XEvent.keyPress 6])).queue
        = [XEvent.keyPress 5, XEvent.clientMessage 7, XEvent.keyPress 6] := by
  refine ⟨rfl, by decide, by decide, rfl, ?_, rfl⟩
  simp [apply_events, poll_switch]

/-- C8, amended.  In a running backend whose window is not closed, on a queue
`pre ++ [close request] ++ suf` with no close request in `pre`,
`linux_x11_poll_events` returns true; the resulting state is the one obtained
by processing `pre` alone (which is also what a call on the queue `pre`
leaves), with the closed flag set, so the key table, the mouse-button table
and the last-click position are those of the prefix; exactly `suf` is left
unread; and every later call, on any queue `q1`, returns true without reading
an event or changing the state. -/
theorem early_exit_on_close (s : X11State) (pre suf q1 : List XEvent) (e : XEvent)
    (hd : s.display.isSome = true) (hc : s.window_closed = false)
    (hpre : ∀ e1 ∈ pre, isCloseRequest s e1 = false) (he : isCloseRequest s e = true) :
    linux_x11_poll_events s (pre ++ e :: suf) =
      ⟨true, { apply_events s pre with window_closed := true }, suf⟩ ∧
    (linux_x11_poll_events s pre).state = apply_events s pre ∧
    (linux_x11_poll_events s (pre ++ e :: suf)).state.keys = (apply_events s pre).keys ∧
    (linux_x11_poll_events s (pre ++ e :: suf)).state.mouse_buttons
      = (apply_events s pre).mouse_buttons ∧
    (linux_x11_poll_events s (pre ++ e :: suf)).state.last_click_x
      = (apply_events s pre).last_click_x ∧
    (linux_x11_poll_events s (pre ++ e :: suf)).state.last_click_y
      = (apply_events s pre).last_click_y ∧
    linux_x11_poll_events (linux_x11_poll_events s (pre ++ e :: suf)).state q1 =
      ⟨true, (linux_x11_poll_events s (pre ++ e :: suf)).state, q1⟩ := by
  have h1 : linux_x11_poll_events s (pre ++ e :: suf) =
      ⟨true, { apply_events s pre with window_closed := true }, suf⟩ := by
    rw [poll_events_running s _ hd hc, poll_loop_close s pre suf e hpre he]
  have h2 : (linux_x11_poll_events s pre).state = apply_events s pre := by
    rw [poll_events_running s _ hd hc, poll_loop_no_close s pre hpre]
  refine ⟨h1, h2, ?_, ?_, ?_, ?_, ?_⟩
  · rw [h1]
  · rw [h1]
  · rw [h1]
  · rw [h1]
  · rw [h1]
    exact poll_events_closed _ q1 rfl

theorem early_exit_on_close_witness :
    linux_x11_poll_events x11_running
        ([XEvent.keyPress 5, XEvent.buttonPress 1 3 4] ++ XEvent.clientMessage 7 ::
          [XEvent.keyPress 6]) =
      ⟨true, { apply_events x11_running [XEvent.keyPress 5, XEvent.buttonPress 1 3 4] with
        window_closed := true }, [XEvent.keyPress 6]⟩ ∧
    (linux_x11_poll_events (linux_x11_poll_events x11_running
        ([XEvent.keyPress 5, XEvent.buttonPress 1 3 4] ++ XEvent.clientMessage 7 ::
          [XEvent.keyPress 6])).state [XEvent.keyPress 6]).ret = true :=
  have h := early_exit_on_close x11_running [XEvent.keyPress 5, XEvent.buttonPress 1 3 4]
    [XEvent.keyPress 6] [XEvent.keyPress 6] (XEvent.clientMessage 7) rfl rfl
    (by decide) (by decide)
  ⟨h.1, by rw [h.2.2.2.2.2.2]⟩

/-! ## Staging image -/

theorem present_frame_create (s : X11State) (c : Canvas) (hd : s.display.isSome = true)
    (hc : s.window_closed = false) (hi : s.ximage = none) :
    linux_x11_present_frame s c =
      { s with
        ximage := some
          { id := s.xcalls.length
            width := toInt32 (toUnsignedInt c.width)
            height := toInt32 (toUnsignedInt c.height)
            data := 0 }
        xcalls := s.xcalls ++
          [XCall.createImage s.xcalls.length c.pixels (toUnsignedInt c.width)
              (toUnsignedInt c.height),
            XCall.putImage s.xcalls.length c.pixels (toUnsignedInt c.width)
              (toUnsignedInt c.height)] } := by
  have h1 : s.display.isNone = false := by cases hs : s.display <;> simp_all
  simp [linux_x11_present_frame, present_validate, present_wrap, present_put, present_detach,
    h1, hc, hi]

theorem present_frame_rebuild (s : X11State) (c : Canvas) (img : XImage)
    (hd : s.display.isSome = true) (hc : s.window_closed = false) (hi : s.ximage = some img)
    (hm : intToSizeT img.width ≠ c.width ∨ intToSizeT img.height ≠ c.height) :
    linux_x11_present_frame s c =
      { s with
        ximage := some
          { id := s.xcalls.length + 1
            width := toInt32 (toUnsignedInt c.width)
            height := toInt32 (toUnsignedInt c.height)
            data := 0 }
        xcalls := s.xcalls ++
          [XCall.destroyImage img.id img.data,
            XCall.createImage (s.xcalls.length + 1) c.pixels (toUnsignedInt c.width)
              (toUnsignedInt c.height),
            XCall.putImage (s.xcalls.length + 1) c.pixels (toUnsignedInt c.width)
              (toUnsignedInt c.height)] } := by
  have h1 : s.display.isNone = false := by cases hs : s.display <;> simp_all
  simp [linux_x11_present_frame, present_validate, present_wrap, present_put, present_detach,
    h1, hc, hi, hm]

theorem present_frame_reuse (s : X11State) (c : Canvas) (img : XImage)
    (hd : s.display.isSome = true) (hc : s.window_closed = false) (hi : s.ximage = some img)
    (hm : ¬ (intToSizeT img.width ≠ c.width ∨ intToSizeT img.height ≠ c.height)) :
    linux_x11_present_frame s c =
      { s with
        ximage := some { img with data := 0 }
        xcalls := s.xcalls ++
          [XCall.putImage img.id c.pixels (toUnsignedInt c.width) (toUnsignedInt c.height)] } := by
  have h1 : s.display.isNone = false := by cases hs : s.display <;> simp_all
  simp [linux_x11_present_frame, present_validate, present_wrap, present_put, present_detach,
    h1, hc, hi, hm]

theorem intToSizeT_toInt32 (w : Nat) (h : w < 2 ^ 31) :
    intToSizeT (toInt32 (toUnsignedInt w)) = w := by
  have h1 : w % 2 ^ 32 = w := Nat.mod_eq_of_lt (by omega)
  unfold intToSizeT toInt32 toUnsignedInt
  rw [Nat.mod_mod, h1, if_pos h]
  omega

/-- After a present in a running, open backend the staging image exists, is
detached, and records the canvas size whenever that size fits an `int`. -/
theorem present_frame_image (s : X11State) (c : Canvas) (hd : s.display.isSome = true)
    (hc : s.window_closed = false) (hw : c.width < 2 ^ 31) (hh : c.height < 2 ^ 31) :
    ∃ img, (linux_x11_present_frame s c).ximage = some img ∧ img.data = 0 ∧
      intToSizeT img.width = c.width ∧ intToSizeT img.height = c.height := by
  cases hi : s.ximage with
  | none =>
    rw [present_frame_create s c hd hc hi]
    exact ⟨_, rfl, rfl, intToSizeT_toInt32 _ hw, intToSizeT_toInt32 _ hh⟩
  | some img =>
    by_cases hm : intToSizeT img.width ≠ c.width ∨ intToSizeT img.height ≠ c.height
    · rw [present_frame_rebuild s c img hd hc hi hm]
      exact ⟨_, rfl, rfl, intToSizeT_toInt32 _ hw, intToSizeT_toInt32 _ hh⟩
    · rw [present_frame_reuse s c img hd hc hi hm]
      simp only [not_or, not_not] at hm
      exact ⟨_, rfl, rfl, hm.1, hm.2⟩

theorem frame_calls_of_append (s : X11State) (c : Canvas) (l : List XCall)
    (h : (linux_x11_present_frame s c).xcalls = s.xcalls ++ l) : frame_calls s c = l := by
  unfold frame_calls
  rw [h]
  exact List.drop_left s.xcalls l

/-- C4, as stated, fails for `size_t` sizes that an `int` cannot hold.  With
the canvas at 2^31 x 1 in both calls the second call destroys and recreates
the image although nothing changed; with the canvas at (2^32 + 5) x 1 in the
first call and 5 x 1 in the second, the second call reuses the image although
the width changed. -/
theorem staging_rebuild_counterexample :
    rebuilds (linux_x11_present_frame x11_running ⟨100, 2 ^ 31, 1⟩) ⟨100, 2 ^ 31, 1⟩ = true ∧
    frame_calls (linux_x11_present_frame x11_running ⟨100, 2 ^ 31, 1⟩) ⟨100, 2 ^ 31, 1⟩ =
      [XCall.destroyImage 0 0, XCall.createImage 3 100 (2 ^ 31) 1,
        XCall.putImage 3 100 (2 ^ 31) 1] ∧
    rebuilds (linux_x11_present_frame x11_running ⟨100, 2 ^ 32 + 5, 1⟩) ⟨100, 5, 1⟩ = false ∧
    frame_calls (linux_x11_present_frame x11_running ⟨100, 2 ^ 32 + 5, 1⟩) ⟨100, 5, 1⟩ =
      [XCall.putImage 0 100 5 1] := by
  refine ⟨?_, ?_, ?_, ?_⟩ <;> decide

/-- C4, amended.  Take two successive `linux_x11_present_frame` calls in a
running, open backend, the canvas reporting `c1` at the first and `c2` at the
second, where the width and height of `c1` are below 2^31 (they fit the `int`
fields of an `XImage`).  The second call destroys the staging image and
creates a new one if and only if the width or the height of `c2` differs from
that of `c1`.  When they differ the second call issues exactly
`XDestroyImage` (on an image holding no data), `XCreateImage`, `XPutImage`;
when they agree it issues only `XPutImage` on the existing image, repointed to
the pixels of `c2`, and the image object is the same afterwards. -/
theorem staging_rebuild (s : X11State) (c1 c2 : Canvas)
    (hd : s.display.isSome = true) (hc : s.window_closed = false)
    (hw : c1.width < 2 ^ 31) (hh : c1.height < 2 ^ 31) :
    ∃ img1, (linux_x11_present_frame s c1).ximage = some img1 ∧
      (rebuilds (linux_x11_present_frame s c1) c2 = true ↔
        (c2.width ≠ c1.width ∨ c2.height ≠ c1.height)) ∧
      ((c2.width ≠ c1.width ∨ c2.height ≠ c1.height) →
        frame_calls (linux_x11_present_frame s c1) c2 =
          [XCall.destroyImage img1.id 0,
            XCall.createImage ((linux_x11_present_frame s c1).xcalls.length + 1) c2.pixels
              (toUnsignedInt c2.width) (toUnsignedInt c2.height),
            XCall.putImage ((linux_x11_present_frame s c1).xcalls.length + 1) c2.pixels
              (toUnsignedInt c2.width) (toUnsignedInt c2.height)]) ∧
      ((c2.width = c1.width ∧ c2.height = c1.height) →
        frame_calls (linux_x11_present_frame s c1) c2 =
          [XCall.putImage img1.id c2.pixels (toUnsignedInt c2.width) (toUnsignedInt c2.height)] ∧
        (linux_x11_present_frame (linux_x11_present_frame s c1) c2).ximage = some img1) := by
  obtain ⟨img1, hi, hdata, hw1, hh1⟩ := present_frame_image s c1 hd hc hw hh
  have hf := present_frame_frame s c1
  have hd1 : (linux_x11_present_frame s c1).display.isSome = true := by rw [hf.1]; exact hd
  have hc1 : (linux_x11_present_frame s c1).window_closed = false := by rw [hf.2.1]; exact hc
  have hdiff : (c2.width ≠ c1.width ∨ c2.height ≠ c1.height) →
      frame_calls (linux_x11_present_frame s c1) c2 =
        [XCall.destroyImage img1.id 0,
          XCall.createImage ((linux_x11_present_frame s c1).xcalls.length + 1) c2.pixels
            (toUnsignedInt c2.width) (toUnsignedInt c2.height),
          XCall.putImage ((linux_x11_present_frame s c1).xcalls.length + 1) c2.pixels
            (toUnsignedInt c2.width) (toUnsignedInt c2.height)] := by
    intro hne
    have hm : intToSizeT img1.width ≠ c2.width ∨ intToSizeT img1.height ≠ c2.height := by
      rw [hw1, hh1]
      rcases hne with h | h
      · exact Or.inl (Ne.symm h)
      · exact Or.inr (Ne.symm h)
    apply frame_calls_of_append
    rw [present_frame_rebuild _ c2 img1 hd1 hc1 hi hm, hdata]
  have hsame : (c2.width = c1.width ∧ c2.height = c1.height) →
      frame_calls (linux_x11_present_frame s c1) c2 =
        [XCall.putImage img1.id c2.pixels (toUnsignedInt c2.width) (toUnsignedInt c2.height)] ∧
      (linux_x11_present_frame (linux_x11_present_frame s c1) c2).ximage = some img1 := by
    intro heq
    have hm : ¬ (intToSizeT img1.width ≠ c2.width ∨ intToSizeT img1.height ≠ c2.height) := by
      rw [hw1, hh1, heq.1, heq.2]
      simp
    constructor
    · apply frame_calls_of_append
      rw [present_frame_reuse _ c2 img1 hd1 hc1 hi hm]
    · rw [present_frame_reuse _ c2 img1 hd1 hc1 hi hm]
      show some ({ img1 with data := 0 } : XImage) = some img1
      rw [← hdata]
  refine ⟨img1, hi, ?_, hdiff, hsame⟩
  constructor
  · intro hr
    by_contra hne
    have heq : c2.width = c1.width ∧ c2.height = c1.height := by
      constructor
      · by_contra h; exact hne (Or.inl h)
      · by_contra h; exact hne (Or.inr h)
    rw [rebuilds, (hsame heq).1] at hr
    simp [isDestroyImage] at hr
  · intro hne
    rw [rebuilds, hdiff hne]
    rfl

theorem staging_rebuild_witness :
    ∃ img1, (linux_x11_present_frame x11_running ⟨100, 800, 600⟩).ximage = some img1 ∧
      (rebuilds (linux_x11_present_frame x11_running ⟨100, 800, 600⟩) ⟨200, 1024, 768⟩ = true ↔
        ((1024 : Nat) ≠ 800 ∨ (768 : Nat) ≠ 600)) ∧
      (((1024 : Nat) ≠ 800 ∨ (768 : Nat) ≠ 600) →
        frame_calls (linux_x11_present_frame x11_running ⟨100, 800, 600⟩) ⟨200, 1024, 768⟩ =
          [XCall.destroyImage img1.id 0,
            XCall.createImage
              ((linux_x11_present_frame x11_running ⟨100, 800, 600⟩).xcalls.length + 1) 200
              (toUnsignedInt 1024) (toUnsignedInt 768),
            XCall.putImage
              ((linux_x11_present_frame x11_running ⟨100, 800, 600⟩).xcalls.length + 1) 200
              (toUnsignedInt 1024) (toUnsignedInt 768)]) ∧
      (((1024 : Nat) = 800 ∧ (768 : Nat) = 600) →
        frame_calls (linux_x11_present_frame x11_running ⟨100, 800, 600⟩) ⟨200, 1024, 768⟩ =
          [XCall.putImage img1.id 200 (toUnsignedInt 1024) (toUnsignedInt 768)] ∧
        (linux_x11_present_frame (linux_x11_present_frame x11_running ⟨100, 800, 600⟩)
          ⟨200, 1024, 768⟩).ximage = some img1) :=
  staging_rebuild x11_running ⟨100, 800, 600⟩ ⟨200, 1024, 768⟩ rfl rfl (by decide) (by decide)

theorem present_frame_detached (s : X11State) (c : Canvas) (hd : s.display.isSome = true)
    (hc : s.window_closed = false) :
    ∃ img, (linux_x11_present_frame s c).ximage = some img ∧ img.data = 0 := by
  cases hi : s.ximage with
  | none =>
    rw [present_frame_create s c hd hc hi]
    exact ⟨_, rfl, rfl⟩
  | some img =>
    by_cases hm : intToSizeT img.width ≠ c.width ∨ intToSizeT img.height ≠ c.height
    · rw [present_frame_rebuild s c img hd hc hi hm]
      exact ⟨_, rfl, rfl⟩
    · rw [present_frame_reuse s c img hd hc hi hm]
      exact ⟨_, rfl, rfl⟩

theorem present_frame_inv (s : X11State) (c : Canvas) (h1 : staging_detached s = true)
    (h2 : no_data_freed s = true) :
    staging_detached (linux_x11_present_frame s c) = true ∧
    no_data_freed (linux_x11_present_frame s c) = true := by
  by_cases hg : s.display.isNone = true ∨ s.window_closed = true
  · rw [present_frame_noop s c hg]
    exact ⟨h1, h2⟩
  · have hd : s.display.isSome = true := by
      cases hs : s.display <;> simp_all
    have hc : s.window_closed = false := by
      cases hs : s.window_closed <;> simp_all
    cases hi : s.ximage with
    | none =>
      rw [present_frame_create s c hd hc hi]
      refine ⟨by simp [staging_detached], ?_⟩
      simp only [no_data_freed, List.all_append] at h2 ⊢
      rw [h2]
      rfl
    | some img =>
      have h0 : img.data = 0 := by simpa [staging_detached, hi] using h1
      by_cases hm : intToSizeT img.width ≠ c.width ∨ intToSizeT img.height ≠ c.height
      · rw [present_frame_rebuild s c img hd hc hi hm]
        refine ⟨by simp [staging_detached], ?_⟩
        simp only [no_data_freed, List.all_append] at h2 ⊢
        rw [h2, h0]
        rfl
      · rw [present_frame_reuse s c img hd hc hi hm]
        refine ⟨by simp [staging_detached], ?_⟩
        simp only [no_data_freed, List.all_append] at h2 ⊢
        rw [h2]
        rfl

theorem poll_loop_image (s : X11State) (q : List XEvent) :
    (poll_loop s q).state.ximage = s.ximage ∧ (poll_loop s q).state.xcalls = s.xcalls := by
  induction q generalizing s with
  | nil => exact ⟨rfl, rfl⟩
  | cons e q ih =>
    rw [poll_loop_cons]
    split_ifs
    · exact ⟨poll_switch_ximage s e, poll_switch_xcalls s e⟩
    · exact ⟨(ih _).1.trans (poll_switch_ximage s e), (ih _).2.trans (poll_switch_xcalls s e)⟩

theorem poll_events_image (s : X11State) (q : List XEvent) :
    (linux_x11_poll_events s q).state.ximage = s.ximage ∧
    (linux_x11_poll_events s q).state.xcalls = s.xcalls := by
  unfold linux_x11_poll_events
  split_ifs
  · exact ⟨rfl, rfl⟩
  · exact ⟨rfl, rfl⟩
  · exact poll_loop_image s q

theorem x11_step_inv (s s1 : X11State) (op : X11Op) (h : x11_step s op = some s1)
    (h1 : staging_detached s = true) (h2 : no_data_freed s = true) :
    staging_detached s1 = true ∧ no_data_freed s1 = true := by
  cases op with
  | init_app srv c q =>
    cases hr : linux_x11_init_app srv c s q with
    | none => simp [x11_step, hr] at h
    | some r =>
      obtain ⟨s2, rest⟩ := r
      simp only [x11_step, hr, Option.map_some', Option.some.injEq] at h
      subst h
      have hf := init_app_frame srv c s s2 q rest hr
      constructor
      · simp only [staging_detached, hf.2.2.2.2.2.1] at h1 ⊢
        exact h1
      · simp only [no_data_freed, hf.2.2.2.2.2.2, List.all_append] at h2 ⊢
        rw [h2]
        rfl
  | poll_events q =>
    simp only [x11_step, Option.some.injEq] at h
    subst h
    have hf := poll_events_image s q
    constructor
    · simp only [staging_detached, hf.1] at h1 ⊢
      exact h1
    · simp only [no_data_freed, hf.2] at h2 ⊢
      exact h2
  | present_frame c =>
    simp only [x11_step, Option.some.injEq] at h
    subst h
    exact present_frame_inv s c h1 h2
  | is_key_down k =>
    simp only [x11_step, linux_x11_is_key_down, Option.some.injEq] at h
    split_ifs at h <;> (subst h; exact ⟨h1, h2⟩)
  | is_mouse_down b =>
    simp only [x11_step, linux_x11_is_mouse_down, Option.some.injEq] at h
    split_ifs at h <;> (subst h; exact ⟨h1, h2⟩)
  | get_last_click_position x y =>
    simp only [x11_step, Option.some.injEq] at h
    subst h
    exact ⟨h1, h2⟩

theorem x11_run_inv (s s1 : X11State) (ops : List X11Op) (h : x11_run s ops = some s1)
    (h1 : staging_detached s = true) (h2 : no_data_freed s = true) :
    staging_detached s1 = true ∧ no_data_freed s1 = true := by
  induction ops generalizing s with
  | nil =>
    simp only [x11_run, Option.some.injEq] at h
    subst h
    exact ⟨h1, h2⟩
  | cons op ops ih =>
    obtain ⟨s2, h3, h4⟩ := x11_run_cons s op ops s1 h
    have h5 := x11_step_inv s s2 op h3 h1 h2
    exact ih s2 h4 h5.1 h5.2

/-- C9. X11 staging-buffer detach invariant.  For every state `s`: when the
backend is running and the window open, the staging image exists after
`linux_x11_present_frame` and its `data` field is `NULL`; when the backend is
uninitialised or the window closed, the call changes nothing.  For every
state `s1` reached from the initial state by any sequence of `init_app`,
`poll_events`, `present_frame` and query calls: there is no staging image or
its `data` field is `NULL`, and every `XDestroyImage` issued on the way acted
on an image whose `data` field was `NULL`, so none freed pixel memory. -/
theorem staging_detach_invariant (s : X11State) (c : Canvas) (ops : List X11Op)
    (s1 : X11State) (hrun : x11_run x11_initial ops = some s1) :
    ((s.display.isSome = true ∧ s.window_closed = false) →
      ∃ img, (linux_x11_present_frame s c).ximage = some img ∧ img.data = 0) ∧
    ((s.display.isNone = true ∨ s.window_closed = true) → linux_x11_present_frame s c = s) ∧
    staging_detached s1 = true ∧ no_data_freed s1 = true := by
  refine ⟨fun h => present_frame_detached s c h.1 h.2, present_frame_noop s c, ?_⟩
  exact x11_run_inv x11_initial s1 ops hrun rfl rfl

theorem staging_detach_invariant_witness :
    ((x11_running.display.isSome = true ∧ x11_running.window_closed = false) →
      ∃ img, (linux_x11_present_frame x11_running ⟨100, 800, 600⟩).ximage = some img ∧
        img.data = 0) ∧
    ((x11_running.display.isNone = true ∨ x11_running.window_closed = true) →
      linux_x11_present_frame x11_running ⟨100, 800, 600⟩ = x11_running) ∧
    staging_detached
      (linux_x11_present_frame
        (linux_x11_present_frame
          { x11_initial with
            display := some 1, screen := 0, window := 2, wm_delete_window := 7, gc := 3,
            xcalls := [] ++ [XCall.createSimpleWindow (toUnsignedInt 800) (toUnsignedInt 600)] }
          ⟨100, 800, 600⟩)
        ⟨200, 1024, 768⟩) = true ∧
    no_data_freed
      (linux_x11_present_frame
        (linux_x11_present_frame
          { x11_initial with
            display := some 1, screen := 0, window := 2, wm_delete_window := 7, gc := 3,
            xcalls := [] ++ [XCall.createSimpleWindow (toUnsignedInt 800) (toUnsignedInt 600)] }
          ⟨100, 800, 600⟩)
        ⟨200, 1024, 768⟩) = true :=
  staging_detach_invariant x11_running ⟨100, 800, 600⟩
    [X11Op.init_app ⟨some 1, 0, 2, 7, 3⟩ ⟨100, 800, 600⟩ [XEvent.mapNotify],
      X11Op.present_frame ⟨100, 800, 600⟩, X11Op.present_frame ⟨200, 1024, 768⟩] _ rfl

/-! ## Win32 drain -/

end Facet
